import Mathlib

/-!
# Inventario INA: ledger, catalogue and report routes of `server.js`

A shallow embedding of the Express route handlers of `src/server.js`.

* Every table of the relational store is a list of rows, in insertion order.
  A `SELECT ... WHERE` is a `List.filter`, an `UPDATE ... WHERE` a `List.map`,
  a `DELETE ... WHERE` a `List.filter` on the complement, an `INSERT` appends
  one row and draws its `id` from the table's sequence.
* A handler is a function from the store, the session and the request to a
  response and the store it leaves behind.  The handlers are `async`; each one
  is modelled run to completion on its own (one request at a time), and
  `POST /historial` is modelled a second time statement by statement, for two
  requests in flight.
* Request fields are `Option String`: `none` is a field that is absent
  (`undefined` in the handler).
* Quantities are mathematical integers.  The schema is not part of the
  source; the quantity columns are taken to be integer columns that the driver
  hands to the handler as numbers, and their range limit is not modelled.
-/

namespace Inventario

/-! ## Tables -/

/-- Row of `usuarios`. -/
structure Usuario where
  id : Int
  nombre : String
  usuario : String
  contrasena : String
  rol : String
deriving DecidableEq, Repr

/-- Row of `categorias`. -/
structure Categoria where
  id : Int
  nombre : String
deriving DecidableEq, Repr

/-- Row of `ubicaciones`. -/
structure Ubicacion where
  id : Int
  nombre : String
deriving DecidableEq, Repr

/-- Row of `componentes`.  `tipo` and `ubicacion` are the nullable references
to `categorias` and `ubicaciones`. -/
structure Componente where
  id : Int
  nombre : String
  descripcion : Option String
  cantidad : Int
  tipo : Option Int
  ubicacion : Option Int
  estado : Option String
  imagen : Option String
deriving DecidableEq, Repr

/-- Row of `historial` (one movement of the ledger).  `fecha` is the timestamp
written by `NOW()`, as a number on the store's clock. -/
structure Movimiento where
  id : Int
  componente_id : Int
  movimiento : String
  cantidad : Int
  persona : Option String
  observaciones : Option String
  fecha : Int
deriving DecidableEq, Repr

/-- The relational store reached through `pool.query`. -/
structure Store where
  usuarios : List Usuario
  categorias : List Categoria
  ubicaciones : List Ubicacion
  componentes : List Componente
  historial : List Movimiento
  /-- Next value of the sequence behind `historial.id`. -/
  historial_id_seq : Int
deriving DecidableEq, Repr

/-! ## Session and responses -/

/-- The identity snapshot `req.session.user` written by `POST /login`. -/
structure SessionUser where
  id : Int
  nombre : String
  usuario : String
  rol : String
deriving DecidableEq, Repr

/-- The value of `req.session.user`: `none` when nobody is logged in. -/
abbrev Session := Option SessionUser

/-- What a handler answers with.  For `render` only the view and the `error`
local are kept; the listings handed to the view are read-only queries. -/
inductive Respuesta where
  | redirect (ruta : String)
  | send (estado : Nat) (cuerpo : String)
  | render (vista : String) (error : Option String)
deriving DecidableEq, Repr

/-! ## Runtime helpers -/

/-- JavaScript truthiness of a request field: defined and not the empty string. -/
def truthy : Option String → Bool
  | some s => s != ""
  | none => false

/-- The expression `x || null` on a request field. -/
def orNull : Option String → Option String
  | some s => if s = "" then none else some s
  | none => none

/-- White space skipped by `parseInt` (`StrWhiteSpaceChar` of ECMAScript). -/
def isStrWhiteSpaceChar (c : Char) : Bool :=
  c.toNat ∈ [0x9, 0xA, 0xB, 0xC, 0xD, 0x20, 0xA0, 0x1680, 0x2028, 0x2029, 0x202F, 0x205F,
    0x3000, 0xFEFF] || (0x2000 ≤ c.toNat && c.toNat ≤ 0x200A)

/-- Value of a character as a digit (letters count from ten, as in radix 16). -/
def digitValue (c : Char) : Option Nat :=
  if '0' ≤ c ∧ c ≤ '9' then some (c.toNat - '0'.toNat)
  else if 'a' ≤ c ∧ c ≤ 'z' then some (c.toNat - 'a'.toNat + 10)
  else if 'A' ≤ c ∧ c ≤ 'Z' then some (c.toNat - 'A'.toNat + 10)
  else none

/-- Whether `c` is a digit of radix `radix`. -/
def isRadixDigit (radix : Nat) (c : Char) : Bool :=
  match digitValue c with
  | some d => decide (d < radix)
  | none => false

/-- Number written by a list of digits of radix `radix`. -/
def digitsValue (radix : Nat) (ds : List Char) : Nat :=
  ds.foldl (fun acc c => acc * radix + (digitValue c).getD 0) 0

/-- The global `parseInt(string)` called without a radix, on the characters of
the string: leading white space is skipped, then an optional sign, then an
optional `0x`/`0X` (radix 16, otherwise 10), then the longest run of digits;
what follows the digits is ignored.  `none` is `NaN`.  The value is exact (the
rounding of numbers above 2^53 is not modelled). -/
def parseIntChars (cs : List Char) : Option Int :=
  let s := cs.dropWhile isStrWhiteSpaceChar
  let signo : Int × List Char :=
    match s with
    | '-' :: r => (-1, r)
    | '+' :: r => (1, r)
    | _ => (1, s)
  let base : Nat × List Char :=
    match signo.2 with
    | '0' :: 'x' :: r => (16, r)
    | '0' :: 'X' :: r => (16, r)
    | r => (10, r)
  let ds := base.2.takeWhile (isRadixDigit base.1)
  if ds.isEmpty then none else some (signo.1 * (digitsValue base.1 ds : Int))

/-- The call `parseInt(cantidad)` on a request field; an absent field is the
string `undefined`, which has no digits. -/
def parseInt : Option String → Option Int
  | some s => parseIntChars s.data
  | none => none

/-- Lower-casing of one character: the letters of Basic Latin and of Latin-1
(`A`-`Z`, `À`-`Þ` without `×`) move to their lower-case form, every other
character is kept.  On the movement kinds compared below (`préstamo`, `salida`,
`devolución`, `ingreso`) this agrees with `String.prototype.toLowerCase`: no
character outside these ranges lower-cases to one of their letters. -/
def toLowerCaseChar (c : Char) : Char :=
  if ('A' ≤ c ∧ c ≤ 'Z') ∨ (0xC0 ≤ c.toNat ∧ c.toNat ≤ 0xDE ∧ c.toNat ≠ 0xD7) then
    Char.ofNat (c.toNat + 32)
  else c

/-- The method `String.prototype.toLowerCase`, character by character. -/
def toLowerCase (s : String) : String :=
  String.mk (s.data.map toLowerCaseChar)

/-- White space accepted around a number by the store's integer input. -/
def isPgSpace (c : Char) : Bool :=
  c.toNat ∈ [0x9, 0xA, 0xB, 0xC, 0xD, 0x20]

/-- The store's conversion of a text parameter compared with an integer column
(`WHERE id = $1` with a string from the request): optional white space, an
optional sign, decimal digits, optional white space.  `none` is the store's
"invalid input syntax" error, which the handler sees as a thrown exception. -/
def pgInteger (s : String) : Option Int :=
  let t := ((s.data.dropWhile isPgSpace).reverse.dropWhile isPgSpace).reverse
  let signo : Int × List Char :=
    match t with
    | '-' :: r => (-1, r)
    | '+' :: r => (1, r)
    | _ => (1, t)
  if signo.2.isEmpty then none
  else if signo.2.all (isRadixDigit 10) then some (signo.1 * (digitsValue 10 signo.2 : Int))
  else none

/-- A request field bound to a `$n` placeholder that is compared with an integer
column.  `Except.error ()` is the store rejecting the text; `none` is SQL `NULL`
(an absent field), which equals no row. -/
def paramEntero : Option String → Except Unit (Option Int)
  | none => .ok none
  | some s =>
    match pgInteger s with
    | some n => .ok (some n)
    | none => .error ()

/-! ## Statements of the ledger routes -/

/-- Statement `SELECT nombre FROM usuarios WHERE nombre = $1`. -/
def selectUsuarioPorNombre (db : Store) (persona : String) : List Usuario :=
  db.usuarios.filter (fun u => u.nombre = persona)

/-- Statement `SELECT cantidad, nombre FROM componentes WHERE id = $1`. -/
def selectComponente (db : Store) (id : Option Int) : List Componente :=
  db.componentes.filter (fun c => some c.id = id)

/-- Statement `UPDATE componentes SET cantidad = $1 WHERE id = $2`. -/
def updateCantidad (db : Store) (nueva : Int) (id : Option Int) : Store :=
  let fijar : Componente → Componente := fun c =>
    if some c.id = id then { c with cantidad := nueva } else c
  { db with componentes := db.componentes.map fijar }

/-- Statement `UPDATE componentes SET cantidad = cantidad + $1 WHERE id = $2`. -/
def updateSumarCantidad (db : Store) (delta : Int) (id : Int) : Store :=
  let sumar : Componente → Componente := fun c =>
    if c.id = id then { c with cantidad := c.cantidad + delta } else c
  { db with componentes := db.componentes.map sumar }

/-- Statement `INSERT INTO historial (componente_id, movimiento, cantidad, persona,
observaciones, fecha) VALUES ($1, $2, $3, $4, $5, NOW())`. -/
def insertHistorial (db : Store) (ahora : Int) (componente_id : Int) (movimiento : String)
    (cantidad : Int) (persona observaciones : Option String) : Store :=
  { db with
    historial := db.historial ++
      [{ id := db.historial_id_seq, componente_id := componente_id, movimiento := movimiento,
         cantidad := cantidad, persona := persona, observaciones := observaciones,
         fecha := ahora }],
    historial_id_seq := db.historial_id_seq + 1 }

/-- Statement `SELECT componente_id, cantidad, persona FROM historial WHERE id = $1`. -/
def selectPrestamo (db : Store) (id : Option Int) : List Movimiento :=
  db.historial.filter (fun m => some m.id = id)

/-! ## `POST /historial` and `POST /historial/devolver` -/

/-- The body of `POST /historial`. -/
structure CuerpoHistorial where
  componente_id : Option String
  movimiento : Option String
  cantidad : Option String
  persona : Option String
  observaciones : Option String
deriving DecidableEq, Repr

/-- The body of `POST /historial/devolver`. -/
structure CuerpoDevolver where
  prestamo_id : Option String
  observaciones : Option String
deriving DecidableEq, Repr

def msgNoAutorizado : String := "No autorizado"
def msgPersonaNoRegistrada : String := "⚠️ La persona indicada no está registrada como usuario"
def msgCantidadInvalida : String := "Cantidad inválida"
def msgComponenteNoEncontrado : String := "Componente no encontrado"
def msgStockInsuficiente : String :=
  "⚠️ No hay suficiente stock disponible para realizar este movimiento."
def msgTipoInvalido : String := "Tipo de movimiento inválido"
def msgErrorRegistrar : String := "⚠️ Error al registrar movimiento"
def msgPrestamoNoEncontrado : String := "Préstamo no encontrado"
def msgErrorDevolucion : String := "Error al registrar devolución"

/-- The two writes that end a successful `POST /historial`: the `UPDATE` of the
component's quantity, then the `INSERT` of the movement, then the redirect. -/
def escribirMovimiento (ahora : Int) (db : Store) (id : Int) (movimiento : String)
    (cantidadNum nuevaCantidad : Int) (body : CuerpoHistorial) : Respuesta × Store :=
  let db1 := updateCantidad db nuevaCantidad (some id)
  let db2 := insertHistorial db1 ahora id movimiento cantidadNum
    (orNull body.persona) (orNull body.observaciones)
  (.redirect "/historial", db2)

/-- The handler `app.post('/historial')` (record a movement).  `ahora` is the
store's clock at the `INSERT`. -/
def postHistorial (ahora : Int) (db : Store) (ses : Session) (body : CuerpoHistorial) :
    Respuesta × Store :=
  match ses with
  | none => (.send 403 msgNoAutorizado, db)
  | some user =>
    if user.rol ≠ "docente" then (.send 403 msgNoAutorizado, db)
    else if truthy body.persona ∧
        (selectUsuarioPorNombre db (body.persona.getD "")).length = 0 then
      (.render "historial" (some msgPersonaNoRegistrada), db)
    else
      match parseInt body.cantidad with
      | none => (.send 200 msgCantidadInvalida, db)
      | some cantidadNum =>
        if cantidadNum ≤ 0 then (.send 200 msgCantidadInvalida, db)
        else
          match paramEntero body.componente_id with
          | .error _ => (.render "historial" (some msgErrorRegistrar), db)
          | .ok id =>
            match selectComponente db id, id with
            | fila :: _, some idNum =>
              match body.movimiento with
              | none => (.render "historial" (some msgErrorRegistrar), db)
              | some movimiento =>
                let tipo := toLowerCase movimiento
                if tipo = "préstamo" ∨ tipo = "salida" then
                  if cantidadNum > fila.cantidad then
                    (.render "historial" (some msgStockInsuficiente), db)
                  else
                    escribirMovimiento ahora db idNum movimiento cantidadNum
                      (fila.cantidad - cantidadNum) body
                else if tipo = "devolución" ∨ tipo = "ingreso" then
                  escribirMovimiento ahora db idNum movimiento cantidadNum
                    (fila.cantidad + cantidadNum) body
                else (.send 200 msgTipoInvalido, db)
            | _, _ => (.send 200 msgComponenteNoEncontrado, db)

/-- The handler `app.post('/historial/devolver')` (return a loan). -/
def postHistorialDevolver (ahora : Int) (db : Store) (ses : Session) (body : CuerpoDevolver) :
    Respuesta × Store :=
  match ses with
  | none => (.send 403 msgNoAutorizado, db)
  | some user =>
    if user.rol ≠ "docente" then (.send 403 msgNoAutorizado, db)
    else
      match paramEntero body.prestamo_id with
      | .error _ => (.send 200 msgErrorDevolucion, db)
      | .ok id =>
        match selectPrestamo db id with
        | [] => (.send 200 msgPrestamoNoEncontrado, db)
        | prestamo :: _ =>
          let db1 := updateSumarCantidad db prestamo.cantidad prestamo.componente_id
          let db2 := insertHistorial db1 ahora prestamo.componente_id "devolución"
            prestamo.cantidad prestamo.persona body.observaciones
          (.redirect "/historial", db2)

/-! ## The ledger operations as one step function -/

/-- A call of one of the two ledger operations, with the clock, the session and
the body it is made with. -/
inductive Operacion where
  | record (ahora : Int) (ses : Session) (body : CuerpoHistorial)
  | returnLoan (ahora : Int) (ses : Session) (body : CuerpoDevolver)
deriving DecidableEq, Repr

/-- Runs one ledger operation. -/
def ejecutar (db : Store) : Operacion → Respuesta × Store
  | .record ahora ses body => postHistorial ahora db ses body
  | .returnLoan ahora ses body => postHistorialDevolver ahora db ses body

/-- Runs ledger operations one at a time, each on the store left by the one before. -/
def ejecutarTodas (db : Store) (ops : List Operacion) : Store :=
  ops.foldl (fun d op => (ejecutar d op).2) db

/-- The quantity of component `n`: the `cantidad` of the first row that
`SELECT cantidad, nombre FROM componentes WHERE id = n` returns. -/
def cantidadDe (db : Store) (n : Int) : Option Int :=
  (selectComponente db (some n)).head?.map (fun c => c.cantidad)

/-- The person of a request is accepted by `POST /historial`: the field is
absent or empty, or it is the `nombre` of a row of `usuarios`. -/
def personaAceptada (db : Store) (persona : Option String) : Prop :=
  truthy persona = false ∨ ∃ u ∈ db.usuarios, some u.nombre = persona

instance (db : Store) (persona : Option String) : Decidable (personaAceptada db persona) := by
  unfold personaAceptada; infer_instance

/-- Every component quantity is at least 0 and every movement quantity is above 0. -/
def StockOk (db : Store) : Prop :=
  (∀ c ∈ db.componentes, 0 ≤ c.cantidad) ∧ (∀ m ∈ db.historial, 0 < m.cantidad)

instance (db : Store) : Decidable (StockOk db) := by
  unfold StockOk; infer_instance

/-! ## `getPublicIdFromUrl` and `GET /eliminar/:id` -/

/-- The method `String.prototype.split` with a one-character separator, on the
characters of the string. -/
def splitChars (sep : Char) : List Char → List (List Char)
  | [] => [[]]
  | c :: cs =>
    if c = sep then [] :: splitChars sep cs
    else
      match splitChars sep cs with
      | [] => [[c]]
      | p :: ps => (c :: p) :: ps

/-- The call `publicId.replace(/\.[^/.]+$/, "")`: when the string ends in a dot
followed by one or more characters that are neither `/` nor `.`, that ending is
removed; otherwise the string is returned as it is. -/
def stripExtension (cs : List Char) : List Char :=
  let noSepara : Char → Bool := fun c => c != '/' && c != '.'
  let ext := cs.reverse.takeWhile noSepara
  match cs.reverse.dropWhile noSepara with
  | '.' :: resto => if ext.isEmpty then cs else resto.reverse
  | _ => cs

/-- The function `getPublicIdFromUrl` that is in effect: the second declaration
of that name (line 358), which replaces the first.  `none` is `null`. -/
def getPublicIdFromUrl (url : Option String) : Option String :=
  match url with
  | none => none
  | some u =>
    if u = "" then none
    else
      let todas := splitChars '/' u.data
      let filename := todas.getLast?.getD []
      let parts := todas.dropLast
      match parts.indexOf? "upload".data with
      | none => none
      | some uploadIndex =>
        let folderParts := parts.drop (uploadIndex + 1)
        let folder := List.intercalate ['/'] folderParts
        let publicId := if folder.isEmpty then filename else folder ++ '/' :: filename
        some (String.mk (stripExtension publicId))

/-- A write of `GET /eliminar/:id`, on the store or on the asset store. -/
inductive Efecto where
  | deleteHistorial (id : Int)
  | destroy (publicId : String)
  | deleteComponente (id : Int)
deriving DecidableEq, Repr

/-- Statement `DELETE FROM historial WHERE componente_id = $1`. -/
def deleteHistorialDe (db : Store) (id : Int) : Store :=
  { db with historial := db.historial.filter (fun m => m.componente_id != id) }

/-- Statement `DELETE FROM componentes WHERE id = $1`. -/
def deleteComponente (db : Store) (id : Int) : Store :=
  { db with componentes := db.componentes.filter (fun c => c.id != id) }

/-- What one write does to the relational store (the asset store is outside it). -/
def aplicar (db : Store) : Efecto → Store
  | .deleteHistorial id => deleteHistorialDe db id
  | .destroy _ => db
  | .deleteComponente id => deleteComponente db id

/-- The middleware `checkRole(role)`: whether it calls `next()` (`true`) or
answers `403 Acceso denegado` (`false`). -/
def checkRole (role : String) (ses : Session) : Bool :=
  match ses with
  | some user => user.rol == role
  | none => false

/-- The handler `app.get('/eliminar/:id')` behind `checkRole('docente')`.
`destroyOk publicId` tells whether `cloudinary.uploader.destroy(publicId)`
resolves (`false`: it rejects and the handler's `catch` answers 500).  The
result carries the writes in the order they were made. -/
def getEliminar (destroyOk : String → Bool) (db : Store) (ses : Session) (idParam : String) :
    Respuesta × Store × List Efecto :=
  if !checkRole "docente" ses then (.send 403 "Acceso denegado", db, [])
  else
    match pgInteger idParam with
    | none => (.send 500 "Error al eliminar componente", db, [])
    | some id =>
      let db1 := deleteHistorialDe db id
      let compRes := db1.componentes.filter (fun c => c.id = id)
      let imagen : Option String :=
        match compRes with
        | fila :: _ => orNull fila.imagen
        | [] => none
      let publicId : Option String :=
        match imagen with
        | some url => orNull (getPublicIdFromUrl (some url))
        | none => none
      match publicId with
      | some pid =>
        if destroyOk pid then
          (.redirect "/inventario", deleteComponente db1 id,
            [.deleteHistorial id, .destroy pid, .deleteComponente id])
        else (.send 500 "Error al eliminar componente", db1, [.deleteHistorial id])
      | none =>
        (.redirect "/inventario", deleteComponente db1 id,
          [.deleteHistorial id, .deleteComponente id])

/-! ## Query helpers -/

/-- The comparison `pattern LIKE text` of the store with the default escape
character: `%` stands for any run of characters, `_` for any one character, a
backslash makes the next pattern character stand for itself.  `esc` tells that
the character before was an unescaped backslash.  A pattern that ends in a lone
backslash (the store raises an error on it) matches nothing here; the patterns
built by the handlers end in `%` and never end so. -/
def likeAux : Bool → List Char → List Char → Bool
  | false, [], t => t.isEmpty
  | true, [], _ => false
  | true, c :: p, t =>
    match t with
    | [] => false
    | d :: t' => c == d && likeAux false p t'
  | false, c :: p, t =>
    if c = '%' then t.tails.any (fun s => likeAux false p s)
    else if c = '\\' then likeAux true p t
    else
      match t with
      | [] => false
      | d :: t' => (c = '_' || c == d) && likeAux false p t'

/-- The condition `LOWER(texto) LIKE LOWER(patron)`.  The store's `LOWER` is
taken to act like `toLowerCase` above. -/
def lowerLike (texto patron : String) : Bool :=
  likeAux false (toLowerCase patron).data (toLowerCase texto).data

/-- The condition `texto ILIKE patron` on a nullable column: `NULL` matches
nothing. -/
def ilike (texto : Option String) (patron : String) : Bool :=
  match texto with
  | some t => lowerLike t patron
  | none => false

/-- The rows a `LEFT JOIN` pairs one left row with: every match, or one `NULL`
row when there is none. -/
def leftMatches {α : Type} (ms : List α) : List (Option α) :=
  if ms.isEmpty then [none] else ms.map some

/-- A row of `componentes c LEFT JOIN categorias cat ON c.tipo = cat.id
LEFT JOIN ubicaciones u ON c.ubicacion = u.id`. -/
structure FilaJoin where
  c : Componente
  cat : Option Categoria
  ubi : Option Ubicacion
deriving DecidableEq, Repr

/-- The two left joins shared by the catalogue and report queries, in table order. -/
def joinComponentes (db : Store) : List FilaJoin :=
  db.componentes.flatMap fun c =>
    (leftMatches (db.categorias.filter (fun cat => c.tipo = some cat.id))).flatMap fun cat =>
      (leftMatches (db.ubicaciones.filter (fun u => c.ubicacion = some u.id))).map fun u =>
        { c := c, cat := cat, ubi := u }

/-- Order of two texts in `ORDER BY`: character by character (the store's
collation is taken to be the code-point one). -/
def textoLe (a b : String) : Prop := ¬ (b.data < a.data)

instance (a b : String) : Decidable (textoLe a b) := by
  unfold textoLe; infer_instance

/-- Order of two nullable texts in an ascending `ORDER BY`: `NULL` comes last. -/
def textoNullLe : Option String → Option String → Prop
  | _, none => True
  | none, some _ => False
  | some a, some b => textoLe a b

instance (a b : Option String) : Decidable (textoNullLe a b) := by
  cases a <;> cases b <;> unfold textoNullLe <;> infer_instance

/-- What a listing or export route answers with: the rows handed to the view
or written to the file, a redirect, or an error status. -/
inductive Listado (α : Type) where
  | filas (destino : String) (rows : List α)
  | redirect (ruta : String)
  | error (estado : Nat) (cuerpo : String)
deriving DecidableEq, Repr

/-! ## `GET /inventario` -/

/-- The query string of `GET /inventario`. -/
structure QueryInventario where
  busqueda : Option String
  tipo : Option String
deriving DecidableEq, Repr

/-- A row selected by `GET /inventario`. -/
structure FilaInventario where
  id : Int
  nombre : String
  descripcion : Option String
  cantidad : Int
  estado : Option String
  imagen : Option String
  tipo_nombre : Option String
  ubicacion_nombre : Option String
deriving DecidableEq, Repr

/-- The condition `columna = $n` on a nullable integer column: `NULL` on either
side is not equal to anything. -/
def sqlEq : Option Int → Option Int → Bool
  | some a, some b => a == b
  | _, _ => false

/-- The value bound to the placeholder of an optional integer filter: nothing
is bound when the field is absent or empty. -/
def paramFiltro (campo : Option String) : Except Unit (Option Int) :=
  if truthy campo then paramEntero campo else .ok none

/-- The query built by `GET /inventario`, before the `SELECT` list is applied:
`WHERE 1=1`, then `AND LOWER(c.nombre) LIKE LOWER($n)` with the parameter
`%busqueda%` when `busqueda` is given, then `AND c.tipo = $n` when `tipo` is
given, then `ORDER BY c.id`. -/
def selectInventario (db : Store) (q : QueryInventario) : Except Unit (List FilaJoin) :=
  match paramFiltro q.tipo with
  | .error e => .error e
  | .ok tipo =>
    .ok (((joinComponentes db).filter fun r =>
        (!truthy q.busqueda || lowerLike r.c.nombre ("%" ++ q.busqueda.getD "" ++ "%")) &&
        (!truthy q.tipo || sqlEq r.c.tipo tipo)).insertionSort (fun a b => a.c.id ≤ b.c.id))

/-- The `SELECT` list of `GET /inventario`. -/
def filaInventario (r : FilaJoin) : FilaInventario :=
  { id := r.c.id, nombre := r.c.nombre, descripcion := r.c.descripcion,
    cantidad := r.c.cantidad, estado := r.c.estado, imagen := r.c.imagen,
    tipo_nombre := r.cat.map (fun x => x.nombre),
    ubicacion_nombre := r.ubi.map (fun x => x.nombre) }

/-- The handler `app.get('/inventario')`. -/
def getInventario (db : Store) (q : QueryInventario) : Listado FilaInventario :=
  match selectInventario db q with
  | .ok rows => .filas "inventario" (rows.map filaInventario)
  | .error _ => .error 500 "Error al cargar inventario"

/-! ## Component reports -/

/-- The query string of the component report routes. -/
structure QueryReportes where
  categoria : Option String
  ubicacion : Option String
deriving DecidableEq, Repr

/-- A row of a component report: the columns shared by the three routes
(`/reportes` selects `c.id` as well). -/
structure FilaReporte where
  id : Option Int
  nombre : String
  categoria : Option String
  ubicacion : Option String
  cantidad : Int
deriving DecidableEq, Repr

/-- The filter `WHERE 1=1`, `AND c.tipo = $n` when `categoria` is given,
`AND c.ubicacion = $n` when `ubicacion` is given. -/
def filtroReportes (db : Store) (q : QueryReportes) : Except Unit (List FilaJoin) :=
  match paramFiltro q.categoria, paramFiltro q.ubicacion with
  | .ok categoria, .ok ubicacion =>
    .ok ((joinComponentes db).filter fun r =>
      (!truthy q.categoria || sqlEq r.c.tipo categoria) &&
      (!truthy q.ubicacion || sqlEq r.c.ubicacion ubicacion))
  | _, _ => .error ()

/-- Whether the session passes `!req.session.user || req.session.user.rol !== 'docente'`. -/
def esDocente : Session → Bool
  | some user => user.rol == "docente"
  | none => false

/-- The handler `app.get('/reportes')`: the filtered rows, `ORDER BY c.nombre`. -/
def getReportes (db : Store) (ses : Session) (q : QueryReportes) : Listado FilaReporte :=
  if !esDocente ses then .redirect "/"
  else
    match filtroReportes db q with
    | .error _ => .error 200 "Error cargando los reportes"
    | .ok rows =>
      .filas "reportes" ((rows.insertionSort (fun a b => textoLe a.c.nombre b.c.nombre)).map
        fun r => { id := some r.c.id, nombre := r.c.nombre,
                   categoria := r.cat.map (fun x => x.nombre),
                   ubicacion := r.ubi.map (fun x => x.nombre), cantidad := r.c.cantidad })

/-- The handler `app.get('/reportes/export/excel')`: the filtered rows, with no
`ORDER BY` (the rows come in the order of the join). -/
def getReportesExportExcel (db : Store) (ses : Session) (q : QueryReportes) :
    Listado FilaReporte :=
  if !esDocente ses then .redirect "/"
  else
    match filtroReportes db q with
    | .error _ => .error 500 "Error generando Excel de componentes"
    | .ok rows =>
      .filas "componentes.xlsx" (rows.map
        fun r => { id := none, nombre := r.c.nombre,
                   categoria := r.cat.map (fun x => x.nombre),
                   ubicacion := r.ubi.map (fun x => x.nombre), cantidad := r.c.cantidad })

/-- The order `ORDER BY cat.nombre, c.nombre` of the component PDF export. -/
def ordenPdf (a b : FilaJoin) : Prop :=
  if a.cat.map (fun x => x.nombre) = b.cat.map (fun x => x.nombre) then
    textoLe a.c.nombre b.c.nombre
  else textoNullLe (a.cat.map (fun x => x.nombre)) (b.cat.map (fun x => x.nombre))

instance (a b : FilaJoin) : Decidable (ordenPdf a b) := by
  unfold ordenPdf; infer_instance

/-- The handler `app.get('/reportes/export/pdf')`: it reads neither the session
nor the query string; every row of the join, `ORDER BY cat.nombre, c.nombre`. -/
def getReportesExportPdf (db : Store) (_ses : Session) (_q : QueryReportes) :
    Listado FilaReporte :=
  .filas "componentes.pdf" (((joinComponentes db).insertionSort ordenPdf).map
    fun r => { id := none, nombre := r.c.nombre,
               categoria := r.cat.map (fun x => x.nombre),
               ubicacion := r.ubi.map (fun x => x.nombre), cantidad := r.c.cantidad })

/-! ## Movement reports -/

/-- The query string of the movement report routes: the on-screen listing
reads `persona`, the PDF export reads `personaFiltro`. -/
structure QueryHistorial where
  fechaDesde : Option String
  fechaHasta : Option String
  persona : Option String
  personaFiltro : Option String
deriving DecidableEq, Repr

/-- Conversions of date texts to the store's clock, made outside the handlers:
`jsDate t` is the parameter the driver sends for `new Date(t)` and `pgTimestamp
t` is the store's reading of the text `t` compared with a timestamp column.
`none` is a text the store rejects. -/
structure Fechas where
  jsDate : String → Option Int
  pgTimestamp : String → Option Int

/-- A row selected by the movement report routes. -/
structure FilaHistorial where
  id : Int
  componente : String
  movimiento : String
  cantidad : Int
  persona : Option String
  observaciones : Option String
  fecha : Int
deriving DecidableEq, Repr

/-- The join `historial h JOIN componentes c ON h.componente_id = c.id` with the
`SELECT` list of the movement reports, in table order. -/
def joinHistorial (db : Store) : List FilaHistorial :=
  db.historial.flatMap fun h =>
    (db.componentes.filter (fun c => h.componente_id = c.id)).map fun c =>
      { id := h.id, componente := c.nombre, movimiento := h.movimiento, cantidad := h.cantidad,
        persona := h.persona, observaciones := h.observaciones, fecha := h.fecha }

/-- The clause `ORDER BY h.fecha DESC`. -/
def ordenFechaDesc (rows : List FilaHistorial) : List FilaHistorial :=
  rows.insertionSort (fun a b => b.fecha ≤ a.fecha)

/-- The value bound to the placeholder of an optional date filter: nothing is
bound (`.ok none`) when the field is absent or empty. -/
def paramFecha (conv : String → Option Int) (campo : Option String) (sufijo : String) :
    Except Unit (Option Int) :=
  if truthy campo then
    match conv (campo.getD "" ++ sufijo) with
    | some t => .ok (some t)
    | none => .error ()
  else .ok none

/-- The filtered movement query shared by the on-screen listing and the PDF
export, given the bound dates and the person filter: `h.fecha >= $n`,
`h.fecha <= $n`, `h.persona ILIKE $n` with the parameter `%persona%`, then
`ORDER BY h.fecha DESC`. -/
def selectHistorial (db : Store) (desde hasta : Option Int) (persona : Option String) :
    List FilaHistorial :=
  ordenFechaDesc ((joinHistorial db).filter fun r =>
    (match desde with | some d => decide (d ≤ r.fecha) | none => true) &&
    (match hasta with | some h => decide (r.fecha ≤ h) | none => true) &&
    (!truthy persona || ilike r.persona ("%" ++ persona.getD "" ++ "%")))

/-- The handler `app.get('/reportes/historial')` (on-screen filtered listing). -/
def getReportesHistorial (fx : Fechas) (db : Store) (q : QueryHistorial) :
    Listado FilaHistorial :=
  match paramFecha fx.jsDate q.fechaDesde "T00:00:00",
        paramFecha fx.jsDate q.fechaHasta "T23:59:59" with
  | .ok desde, .ok hasta => .filas "reportes" (selectHistorial db desde hasta q.persona)
  | _, _ => .error 500 "Error cargando historial"

/-- The handler `app.get('/reportes/historial/excel')`: it reads no query
parameter; every row of the join, `ORDER BY h.fecha DESC`. -/
def getReportesHistorialExcel (_fx : Fechas) (db : Store) (_q : QueryHistorial) :
    Listado FilaHistorial :=
  .filas "historial.xlsx" (ordenFechaDesc (joinHistorial db))

/-- The handler `app.get('/reportes/historial/pdf')`: it reads `fechaDesde`,
`fechaHasta` and `personaFiltro` (each defaulting to the empty string). -/
def getReportesHistorialPdf (fx : Fechas) (db : Store) (q : QueryHistorial) :
    Listado FilaHistorial :=
  match paramFecha fx.pgTimestamp q.fechaDesde "",
        paramFecha fx.pgTimestamp q.fechaHasta " 23:59:59" with
  | .ok desde, .ok hasta => .filas "historial.pdf" (selectHistorial db desde hasta q.personaFiltro)
  | _, _ => .error 500 "Error generando PDF de historial"

/-- A character that `LIKE` reads as itself: none of `%`, `_` and the backslash. -/
def esLiteral (c : Char) : Prop := c ≠ '%' ∧ c ≠ '_' ∧ c ≠ '\\'

/-! ## Sample data -/

/-- A store with one teacher, one student and component 1 at quantity 10. -/
def dbEjemplo : Store :=
  { usuarios := [⟨1, "Prof", "prof", "secreto", "docente"⟩, ⟨2, "Ana", "ana", "clave", "alumno"⟩],
    categorias := [⟨3, "Microcontroladores"⟩],
    ubicaciones := [⟨1, "Armario"⟩],
    componentes := [⟨1, "Arduino Uno", none, 10, some 3, some 1, none, none⟩],
    historial := [],
    historial_id_seq := 1 }

/-- The identity snapshot of the teacher. -/
def docente : SessionUser := ⟨1, "Prof", "prof", "docente"⟩

/-- The session of the teacher. -/
def sesDocente : Session := some docente

/-- A loan of 4 units of component 1 to Ana. -/
def prestamo4 : CuerpoHistorial :=
  ⟨some "1", some "préstamo", some "4", some "Ana", none⟩

/-- A loan of 7 units of component 1 to Ana. -/
def prestamo7 : CuerpoHistorial :=
  ⟨some "1", some "préstamo", some "7", some "Ana", none⟩

/-- The sample store after the loan of 4. -/
def dbPrestado : Store := (postHistorial 100 dbEjemplo sesDocente prestamo4).2

/-- The return of movement 1 (the loan of 4) with notes. -/
def devolver1 : CuerpoDevolver :=
  ⟨some "1", some "returned in good condition"⟩

/-- An entry of component 1 whose quantity field is the text `3.5`. -/
def ingreso3punto5 : CuerpoHistorial :=
  ⟨some "1", some "ingreso", some "3.5", some "Ana", none⟩

/-- An entry of component 1 whose quantity field is the text `3abc`. -/
def ingreso3abc : CuerpoHistorial :=
  ⟨some "1", some "ingreso", some "3abc", some "Ana", none⟩

/-- A request on component 1 with the given quantity text, for Ana. -/
def ingresoCon (cantidad : String) : CuerpoHistorial :=
  ⟨some "1", some "ingreso", some cantidad, some "Ana", none⟩

/-- A loan of 4 units to a person who is no user. -/
def prestamoDesconocido : CuerpoHistorial :=
  ⟨some "1", some "préstamo", some "4", some "Zoe", none⟩

/-- The loan of 4 followed by its return. -/
def opsEjemplo : List Operacion :=
  [.record 100 sesDocente prestamo4, .returnLoan 102 sesDocente devolver1]

/-- A store with two categories, two components (the first with an image in
the asset store) and one movement of each component. -/
def dbDos : Store :=
  { usuarios := [⟨1, "Prof", "prof", "secreto", "docente"⟩, ⟨2, "Ana", "ana", "clave", "alumno"⟩,
                 ⟨3, "Luis", "luis", "clave", "alumno"⟩],
    categorias := [⟨3, "Microcontroladores"⟩, ⟨4, "Sensores"⟩],
    ubicaciones := [⟨1, "Armario"⟩],
    componentes :=
      [⟨1, "Arduino Uno", none, 6, some 3, some 1, none,
          some "https://res.cloudinary.com/demo/image/upload/v17/inventario/uno.png"⟩,
       ⟨2, "Sensor DHT11", none, 5, some 4, some 1, none, none⟩],
    historial :=
      [⟨1, 1, "préstamo", 4, some "Ana", none, 100⟩,
       ⟨2, 2, "salida", 1, some "Luis", none, 101⟩],
    historial_id_seq := 3 }

/-- The two-component store with the component rows in the other order. -/
def dbInvertido : Store :=
  { dbDos with componentes := dbDos.componentes.reverse }

/-- The report filter `categoria=3`. -/
def filtroCategoria3 : QueryReportes := ⟨some "3", none⟩

/-- The movement filter `persona=Ana`, with no dates. -/
def filtroAna : QueryHistorial := ⟨none, none, some "Ana", none⟩

/-! ## The session guard -/

/-- What a middleware does with a request: it answers, or it calls `next()`. -/
inductive Middleware where
  | responder (r : Respuesta)
  | next
deriving DecidableEq, Repr

/-- The middleware `checkAuth`: `next()` when the session holds a user, else a
redirect to `/login`. -/
def checkAuth (ses : Session) : Middleware :=
  match ses with
  | some _ => .next
  | none => .responder (.redirect "/login")

/-- The guard registered with `app.use` before every route but login and logout:
`/login` and `/logout` pass, every other path goes through `checkAuth`. -/
def guardia (path : String) (ses : Session) : Middleware :=
  if path = "/login" ∨ path = "/logout" then .next else checkAuth ses

/-- The guard followed by the routes registered after it: `rutas` is what those
routes do with the request when the guard calls `next()`. -/
def trasGuardia {α : Type} (path : String) (ses : Session) (db : α)
    (rutas : α → Respuesta × α) : Respuesta × α :=
  match guardia path ses with
  | .next => rutas db
  | .responder r => (r, db)

/-! ## State-changing routes behind `checkRole('docente')`

The schema is not part of the source.  A column that the row structures above
hold as a plain value is taken to be `NOT NULL`: a statement that would store
`NULL` in it is rejected by the store, which the handler sees as an exception.
The `id` of an inserted row is handed to the handler's model as `nuevoId`, the
next value of the table's sequence. -/

/-- The body of `POST /usuarios`. -/
structure CuerpoUsuario where
  nombre : Option String
  usuario : Option String
  contrasena : Option String
  rol : Option String
deriving DecidableEq, Repr

/-- The body of `POST /agregar` and of `POST /editar/:id`. -/
structure CuerpoComponente where
  nombre : Option String
  descripcion : Option String
  cantidad : Option String
  tipo : Option String
  ubicacion : Option String
  estado : Option String
deriving DecidableEq, Repr

/-- The file of a multipart request and what `cloudinary.uploader.upload_stream`
does with it: there is no file, the upload resolves with a `secure_url`, or the
upload fails. -/
inductive Subida where
  | sinArchivo
  | subida (secure_url : String)
  | rechazada
deriving DecidableEq, Repr

/-- Modelled from the spec: the unique constraint on `usuarios.usuario` ("login
name unique"), which is declared in the schema and not in the source. -/
def usuarioExiste (db : Store) (usuario : String) : Bool :=
  db.usuarios.any (fun u => u.usuario == usuario)

def msgUsuarioExiste : String := "⚠️ Error: el usuario ya existe"
def msgErrorComponente : String := "⚠️ Error al registrar componente"

/-- The handler of `app.post('/usuarios')`: the `INSERT INTO usuarios`, then the
listing with the success message; the listing with the error message when the
store rejects the row. -/
def postUsuarios (nuevoId : Int) (db : Store) (body : CuerpoUsuario) : Respuesta × Store :=
  match body.nombre, body.usuario, body.contrasena, body.rol with
  | some nombre, some usuario, some contrasena, some rol =>
    if usuarioExiste db usuario then (.render "usuarios" (some msgUsuarioExiste), db)
    else
      (.render "usuarios" none,
        { db with usuarios := db.usuarios ++ [⟨nuevoId, nombre, usuario, contrasena, rol⟩] })
  | _, _, _, _ => (.render "usuarios" (some msgUsuarioExiste), db)

/-- The handler of `app.post('/usuarios/eliminar/:id')`:
`DELETE FROM usuarios WHERE id = $1`. -/
def postUsuariosEliminar (db : Store) (idParam : String) : Respuesta × Store :=
  match pgInteger idParam with
  | none => (.send 500 "Error al eliminar usuario", db)
  | some id =>
    (.render "usuarios" none, { db with usuarios := db.usuarios.filter (fun u => u.id != id) })

/-- The `imagenUrl` of `POST /agregar`: the `secure_url` of the upload, `null`
without a file. -/
def imagenUrlDe : Subida → Option String
  | .subida url => some url
  | _ => none

/-- The handler of `app.post('/agregar')`: the upload when there is a file, then
the `INSERT INTO componentes`; every failure ends in the form with the error
message. -/
def postAgregar (nuevoId : Int) (subida : Subida) (db : Store) (body : CuerpoComponente) :
    Respuesta × Store :=
  if subida = .rechazada then (.render "registro" (some msgErrorComponente), db)
  else
    match body.nombre, paramEntero body.cantidad, paramEntero body.tipo,
        paramEntero body.ubicacion with
    | some nombre, .ok (some cantidad), .ok tipo, .ok ubicacion =>
      (.render "registro" none,
        { db with componentes := db.componentes ++
            [{ id := nuevoId, nombre := nombre, descripcion := body.descripcion,
               cantidad := cantidad, tipo := tipo, ubicacion := ubicacion,
               estado := body.estado, imagen := imagenUrlDe subida }] })
    | _, _, _, _ => (.render "registro" (some msgErrorComponente), db)

/-- The handler of `app.post('/editar/:id')`: the upload when there is a file,
then the `UPDATE componentes ... WHERE id = $n`, which sets `imagen` only when
`imagenUrl` is truthy. -/
def postEditar (idParam : String) (subida : Subida) (db : Store) (body : CuerpoComponente) :
    Respuesta × Store :=
  if subida = .rechazada then (.send 500 "Error al actualizar componente", db)
  else
    match pgInteger idParam, paramEntero body.cantidad, paramEntero body.tipo,
        paramEntero body.ubicacion with
    | some id, .ok cantidad, .ok tipo, .ok ubicacion =>
      if db.componentes.all (fun c => c.id != id) then (.redirect "/inventario", db)
      else
        match body.nombre, cantidad with
        | some nombre, some cantidadNum =>
          let editar : Componente → Componente := fun c =>
            if c.id = id then
              { c with nombre := nombre, descripcion := body.descripcion,
                       cantidad := cantidadNum, tipo := tipo, ubicacion := ubicacion,
                       estado := body.estado,
                       imagen := if truthy (imagenUrlDe subida) then imagenUrlDe subida
                                 else c.imagen }
            else c
          (.redirect "/inventario", { db with componentes := db.componentes.map editar })
        | _, _ => (.send 500 "Error al actualizar componente", db)
    | _, _, _, _ => (.send 500 "Error al actualizar componente", db)

/-- The handler of `app.post('/categorias_ubicaciones/categorias')`:
`INSERT INTO categorias (nombre) VALUES ($1)`. -/
def postCategoria (nuevoId : Int) (db : Store) (nombre : Option String) : Respuesta × Store :=
  match nombre with
  | some n =>
    (.redirect "/categorias_ubicaciones", { db with categorias := db.categorias ++ [⟨nuevoId, n⟩] })
  | none => (.send 500 "Error al crear categoría", db)

/-- The handler of `app.post('/categorias_ubicaciones/ubicaciones')`:
`INSERT INTO ubicaciones (nombre) VALUES ($1)`. -/
def postUbicacion (nuevoId : Int) (db : Store) (nombre : Option String) : Respuesta × Store :=
  match nombre with
  | some n =>
    (.redirect "/categorias_ubicaciones",
      { db with ubicaciones := db.ubicaciones ++ [⟨nuevoId, n⟩] })
  | none => (.send 500 "Error al crear ubicación", db)

/-- Modelled from the spec: the referential policy of `componentes.tipo`, which
is declared in the schema and not in the source ("deleting a referenced
Category does not cascade-delete Components, the reference is nulled"). -/
def anularTipo (id : Int) (c : Componente) : Componente :=
  if c.tipo = some id then { c with tipo := none } else c

/-- Modelled from the spec: the referential policy of `componentes.ubicacion`,
which is declared in the schema and not in the source (the reference to a
deleted Location is nulled). -/
def anularUbicacion (id : Int) (c : Componente) : Componente :=
  if c.ubicacion = some id then { c with ubicacion := none } else c

/-- The handler of `app.post('/categorias_ubicaciones/categorias/eliminar/:id')`:
`DELETE FROM categorias WHERE id = $1`. -/
def postCategoriaEliminar (db : Store) (idParam : String) : Respuesta × Store :=
  match pgInteger idParam with
  | none => (.send 500 "Error al eliminar categoría", db)
  | some id =>
    (.redirect "/categorias_ubicaciones",
      { db with categorias := db.categorias.filter (fun x => x.id != id),
                componentes := db.componentes.map (anularTipo id) })

/-- The handler of `app.post('/categorias_ubicaciones/ubicaciones/eliminar/:id')`:
`DELETE FROM ubicaciones WHERE id = $1`. -/
def postUbicacionEliminar (db : Store) (idParam : String) : Respuesta × Store :=
  match pgInteger idParam with
  | none => (.send 500 "Error al eliminar ubicación", db)
  | some id =>
    (.redirect "/categorias_ubicaciones",
      { db with ubicaciones := db.ubicaciones.filter (fun x => x.id != id),
                componentes := db.componentes.map (anularUbicacion id) })

/-- The handler of `app.post('/categorias_ubicaciones/categorias/editar/:id')`:
`UPDATE categorias SET nombre=$1 WHERE id=$2`.  The handler has no `try`: when
the store rejects the statement no response is sent (`none`). -/
def postCategoriaEditar (db : Store) (idParam : String) (nombre : Option String) :
    Option Respuesta × Store :=
  match pgInteger idParam with
  | none => (none, db)
  | some id =>
    if db.categorias.all (fun x => x.id != id) then
      (some (.redirect "/categorias_ubicaciones"), db)
    else
      match nombre with
      | some n =>
        let renombrar : Categoria → Categoria := fun x =>
          if x.id = id then { x with nombre := n } else x
        (some (.redirect "/categorias_ubicaciones"),
          { db with categorias := db.categorias.map renombrar })
      | none => (none, db)

/-- The handler of `app.post('/categorias_ubicaciones/ubicaciones/editar/:id')`:
`UPDATE ubicaciones SET nombre=$1 WHERE id=$2`, with no `try` either. -/
def postUbicacionEditar (db : Store) (idParam : String) (nombre : Option String) :
    Option Respuesta × Store :=
  match pgInteger idParam with
  | none => (none, db)
  | some id =>
    if db.ubicaciones.all (fun x => x.id != id) then
      (some (.redirect "/categorias_ubicaciones"), db)
    else
      match nombre with
      | some n =>
        let renombrar : Ubicacion → Ubicacion := fun x =>
          if x.id = id then { x with nombre := n } else x
        (some (.redirect "/categorias_ubicaciones"),
          { db with ubicaciones := db.ubicaciones.map renombrar })
      | none => (none, db)

/-- A route registered as `app.post(ruta, checkRole('docente'), handler)`: the
handler runs only when the middleware calls `next()`. -/
def trasCheckRole (ses : Session) (db : Store) (handler : Store → Option Respuesta × Store) :
    Option Respuesta × Store :=
  if checkRole "docente" ses then handler db
  else (some (.send 403 "Acceso denegado"), db)

/-- A handler that always answers. -/
def responde (r : Respuesta × Store) : Option Respuesta × Store := (some r.1, r.2)

/-- What the world outside the store supplies to a request: the clock of
`NOW()`, the next value of the sequence of the table written to, and whether
the asset store carries out a `destroy`. -/
structure Entorno where
  ahora : Int
  nuevoId : Int
  destroyOk : String → Bool

/-- The state-changing operations, each with what its request carries. -/
inductive Cambio where
  | crearUsuario (body : CuerpoUsuario)
  | eliminarUsuario (id : String)
  | crearComponente (subida : Subida) (body : CuerpoComponente)
  | editarComponente (id : String) (subida : Subida) (body : CuerpoComponente)
  | eliminarComponente (id : String)
  | crearCategoria (nombre : Option String)
  | renombrarCategoria (id : String) (nombre : Option String)
  | eliminarCategoria (id : String)
  | crearUbicacion (nombre : Option String)
  | renombrarUbicacion (id : String) (nombre : Option String)
  | eliminarUbicacion (id : String)
  | registrarMovimiento (body : CuerpoHistorial)
  | devolverPrestamo (body : CuerpoDevolver)
deriving DecidableEq, Repr

/-- The route of each state-changing operation, as registered: eleven behind the
middleware `checkRole('docente')`, the two ledger routes with their own check of
the role.  `none` is a request that gets no response. -/
def ejecutarCambio (ent : Entorno) (db : Store) (ses : Session) :
    Cambio → Option Respuesta × Store
  | .crearUsuario body =>
    trasCheckRole ses db (fun d => responde (postUsuarios ent.nuevoId d body))
  | .eliminarUsuario id => trasCheckRole ses db (fun d => responde (postUsuariosEliminar d id))
  | .crearComponente subida body =>
    trasCheckRole ses db (fun d => responde (postAgregar ent.nuevoId subida d body))
  | .editarComponente id subida body =>
    trasCheckRole ses db (fun d => responde (postEditar id subida d body))
  | .eliminarComponente id =>
    (some (getEliminar ent.destroyOk db ses id).1, (getEliminar ent.destroyOk db ses id).2.1)
  | .crearCategoria nombre =>
    trasCheckRole ses db (fun d => responde (postCategoria ent.nuevoId d nombre))
  | .renombrarCategoria id nombre => trasCheckRole ses db (fun d => postCategoriaEditar d id nombre)
  | .eliminarCategoria id => trasCheckRole ses db (fun d => responde (postCategoriaEliminar d id))
  | .crearUbicacion nombre =>
    trasCheckRole ses db (fun d => responde (postUbicacion ent.nuevoId d nombre))
  | .renombrarUbicacion id nombre => trasCheckRole ses db (fun d => postUbicacionEditar d id nombre)
  | .eliminarUbicacion id => trasCheckRole ses db (fun d => responde (postUbicacionEliminar d id))
  | .registrarMovimiento body => responde (postHistorial ent.ahora db ses body)
  | .devolverPrestamo body => responde (postHistorialDevolver ent.ahora db ses body)

/-- The session of the student Ana. -/
def sesAlumno : Session := some ⟨2, "Ana", "ana", "alumno"⟩

/-- A sample environment. -/
def entEjemplo : Entorno := ⟨100, 50, fun _ => true⟩

/-! ## Repeated returns -/

/-- Calls `POST /historial/devolver` with the same body once for every clock
value of the list, each call on the store left by the one before; the answers
come in the order of the calls. -/
def devolverVeces (ses : Session) (body : CuerpoDevolver) :
    List Int → Store → List Respuesta × Store
  | [], db => ([], db)
  | ahora :: resto, db =>
    let r := postHistorialDevolver ahora db ses body
    let rs := devolverVeces ses body resto r.2
    (r.1 :: rs.1, rs.2)

/-- The `devolución` movements that returning `m` once per clock value appends,
the first with the id `seq`. -/
def devoluciones (m : Movimiento) (observaciones : Option String) :
    Int → List Int → List Movimiento
  | _, [] => []
  | seq, ahora :: resto =>
    { id := seq, componente_id := m.componente_id, movimiento := "devolución",
      cantidad := m.cantidad, persona := m.persona, observaciones := observaciones,
      fecha := ahora } :: devoluciones m observaciones (seq + 1) resto

/-- A loan whose quantity text is `abc`, to a person who is no user. -/
def prestamoInvalidoDesconocido : CuerpoHistorial :=
  ⟨some "1", some "préstamo", some "abc", some "Zoe", none⟩

/-! ## `POST /historial` statement by statement

Between two `await pool.query(...)` the handler runs alone; other requests can
run their own statements while it waits.  A step of a request is one resumption
of its handler: the code up to and including its next statement on the store.
The statements are atomic.  The read-only listings of the error pages are left
out, as in `postHistorial`. -/

/-- Where a `POST /historial` request stands between two statements. -/
inductive Etapa where
  /-- Nothing has run yet. -/
  | inicio
  /-- The person was looked up and found. -/
  | trasPersona
  /-- The quantity was read and the stock control passed; the `UPDATE` with
  `nuevaCantidad` comes next. -/
  | porActualizar (idNum : Int) (movimiento : String) (cantidadNum nuevaCantidad : Int)
  /-- The `UPDATE` was made; the `INSERT` comes next. -/
  | porInsertar (idNum : Int) (movimiento : String) (cantidadNum : Int)
  /-- The response was sent. -/
  | fin (r : Respuesta)
deriving DecidableEq, Repr

/-- From `parseInt(cantidad)` to the stock control: the statement run is the
`SELECT cantidad, nombre FROM componentes WHERE id = $1`. -/
def leerComponente (db : Store) (body : CuerpoHistorial) : Etapa :=
  match parseInt body.cantidad with
  | none => .fin (.send 200 msgCantidadInvalida)
  | some cantidadNum =>
    if cantidadNum ≤ 0 then .fin (.send 200 msgCantidadInvalida)
    else
      match paramEntero body.componente_id with
      | .error _ => .fin (.render "historial" (some msgErrorRegistrar))
      | .ok id =>
        match selectComponente db id, id with
        | fila :: _, some idNum =>
          match body.movimiento with
          | none => .fin (.render "historial" (some msgErrorRegistrar))
          | some movimiento =>
            let tipo := toLowerCase movimiento
            if tipo = "préstamo" ∨ tipo = "salida" then
              if cantidadNum > fila.cantidad then
                .fin (.render "historial" (some msgStockInsuficiente))
              else .porActualizar idNum movimiento cantidadNum (fila.cantidad - cantidadNum)
            else if tipo = "devolución" ∨ tipo = "ingreso" then
              .porActualizar idNum movimiento cantidadNum (fila.cantidad + cantidadNum)
            else .fin (.send 200 msgTipoInvalido)
        | _, _ => .fin (.send 200 msgComponenteNoEncontrado)

/-- One step of a `POST /historial` request on the store as it is now. -/
def paso (ahora : Int) (ses : Session) (body : CuerpoHistorial) (db : Store) :
    Etapa → Etapa × Store
  | .inicio =>
    match ses with
    | none => (.fin (.send 403 msgNoAutorizado), db)
    | some user =>
      if user.rol ≠ "docente" then (.fin (.send 403 msgNoAutorizado), db)
      else if truthy body.persona then
        if (selectUsuarioPorNombre db (body.persona.getD "")).length = 0 then
          (.fin (.render "historial" (some msgPersonaNoRegistrada)), db)
        else (.trasPersona, db)
      else (leerComponente db body, db)
  | .trasPersona => (leerComponente db body, db)
  | .porActualizar idNum movimiento cantidadNum nuevaCantidad =>
    (.porInsertar idNum movimiento cantidadNum, updateCantidad db nuevaCantidad (some idNum))
  | .porInsertar idNum movimiento cantidadNum =>
    (.fin (.redirect "/historial"),
      insertHistorial db ahora idNum movimiento cantidadNum (orNull body.persona)
        (orNull body.observaciones))
  | .fin r => (.fin r, db)

/-- Runs `n` steps of one request with no other request in between. -/
def pasos (ahora : Int) (ses : Session) (body : CuerpoHistorial) :
    Nat → Etapa × Store → Etapa × Store
  | 0, c => c
  | n + 1, c => pasos ahora ses body n (paso ahora ses body c.2 c.1)

/-- A `POST /historial` request: its clock, session and body. -/
structure Solicitud where
  ahora : Int
  ses : Session
  body : CuerpoHistorial
deriving DecidableEq, Repr

/-- Which of two concurrent requests makes the next step. -/
inductive Turno where
  | A
  | B
deriving DecidableEq, Repr

/-- Two requests in flight on one store. -/
structure Carrera where
  db : Store
  a : Etapa
  b : Etapa
deriving DecidableEq, Repr

/-- Runs two requests under a schedule: at each turn the named request makes
one step on the shared store. -/
def intercalar (ra rb : Solicitud) : List Turno → Carrera → Carrera
  | [], c => c
  | .A :: ts, c =>
    intercalar ra rb ts
      { c with db := (paso ra.ahora ra.ses ra.body c.db c.a).2,
               a := (paso ra.ahora ra.ses ra.body c.db c.a).1 }
  | .B :: ts, c =>
    intercalar ra rb ts
      { c with db := (paso rb.ahora rb.ses rb.body c.db c.b).2,
               b := (paso rb.ahora rb.ses rb.body c.db c.b).1 }

/-- A store with component 1 at quantity 6. -/
def dbSeis : Store :=
  { dbEjemplo with componentes := [⟨1, "Arduino Uno", none, 6, some 3, some 1, none, none⟩] }

/-- An exit of 6 units of component 1, at the given clock. -/
def salida6 (ahora : Int) : Solicitud :=
  ⟨ahora, sesDocente, ⟨some "1", some "salida", some "6", some "Ana", none⟩⟩

/-- Both requests read the quantity before either writes it. -/
def turnosCruzados : List Turno := [.A, .A, .B, .B, .A, .A, .B, .B]

/-- The first request runs all its statements before the second starts. -/
def turnosEnSerie : List Turno := [.A, .A, .A, .A, .B, .B, .B, .B]

/-! ## Shapes of URLs for `getPublicIdFromUrl` -/

/-- What `getPublicIdFromUrl` returns for the rest `r` of a URL after its
`/upload/` marker, extension removed: `r` itself, except that a rest made of
one leading `/` and a name without `/` loses that `/` (its folder part is the
empty string, which the function takes for "no folder"). -/
def idTrasUpload (r : List Char) : List Char :=
  match r with
  | '/' :: nombre => if '/' ∈ nombre then r else nombre
  | _ => r

/-! ## The dynamic filter builders

Each listing route builds its `WHERE` clause by appending text to the base
query and values to the parameter array.  Here the appended text is a list of
pieces, a placeholder being a piece of its own. -/

/-- A piece of query text: plain SQL, or the placeholder `$k`. -/
inductive Trozo where
  | sql (s : String)
  | marcador (k : Nat)
deriving DecidableEq, Repr

/-- A value of the parameter array: a text, or the `Date` made by
`new Date(texto)`. -/
inductive Valor where
  | texto (s : String)
  | fecha (s : String)
deriving DecidableEq, Repr

/-- The query text that the pieces spell. -/
def textoDe : List Trozo → String
  | [] => ""
  | .sql s :: resto => s ++ textoDe resto
  | .marcador k :: resto => "$" ++ toString k ++ textoDe resto

/-- The state of a builder that numbers its placeholders with a counter
(`index`, `idx` or `i` in the source, starting at 1). -/
structure ConIndice where
  query : List Trozo
  valores : List Valor
  index : Nat
deriving DecidableEq, Repr

/-- The pair of statements that appends a clause under a counter: the text with
`$` and `index++`, then `valores.push(v)`. -/
def ConIndice.clausula (st : ConIndice) (antes despues : String) (v : Valor) : ConIndice :=
  { query := st.query ++ [.sql antes, .marcador st.index, .sql despues],
    valores := st.valores ++ [v],
    index := st.index + 1 }

/-- The state of a builder that numbers its placeholders with `params.length`. -/
structure ConParams where
  query : List Trozo
  params : List Valor
deriving DecidableEq, Repr

/-- The pair of statements that appends a clause under `params.length`:
`params.push(v)`, then the text with `$` and `params.length`. -/
def ConParams.clausula (st : ConParams) (antes : String) (v : Valor) : ConParams :=
  { query := st.query ++ [.sql antes, .marcador (st.params ++ [v]).length],
    params := st.params ++ [v] }

/-- The builder of `GET /inventario`. -/
def construirInventario (q : QueryInventario) : ConIndice :=
  let st0 : ConIndice := ⟨[], [], 1⟩
  let st1 := if truthy q.busqueda then
      st0.clausula " AND LOWER(c.nombre) LIKE LOWER(" ")"
        (.texto ("%" ++ q.busqueda.getD "" ++ "%"))
    else st0
  let st2 := if truthy q.tipo then st1.clausula " AND c.tipo = " "" (.texto (q.tipo.getD ""))
    else st1
  { st2 with query := st2.query ++ [.sql " ORDER BY c.id"] }

/-- The builder of `GET /categorias_ubicaciones`. -/
def construirCategoriasUbicaciones (q : QueryReportes) : ConIndice :=
  let st0 : ConIndice := ⟨[], [], 1⟩
  let st1 := if truthy q.categoria then
      st0.clausula " AND c.tipo = " "" (.texto (q.categoria.getD ""))
    else st0
  let st2 := if truthy q.ubicacion then
      st1.clausula " AND c.ubicacion = " "" (.texto (q.ubicacion.getD ""))
    else st1
  { st2 with query := st2.query ++ [.sql " ORDER BY c.nombre"] }

/-- The builder of `GET /reportes`. -/
def construirReportes (q : QueryReportes) : ConParams :=
  let st0 : ConParams := ⟨[], []⟩
  let st1 := if truthy q.categoria then
      st0.clausula " AND c.tipo = " (.texto (q.categoria.getD ""))
    else st0
  let st2 := if truthy q.ubicacion then
      st1.clausula " AND c.ubicacion = " (.texto (q.ubicacion.getD ""))
    else st1
  { st2 with query := st2.query ++ [.sql " ORDER BY c.nombre"] }

/-- The builder of `GET /reportes/export/excel`: the one of `GET /reportes`
without the `ORDER BY`. -/
def construirReportesExcel (q : QueryReportes) : ConParams :=
  let st0 : ConParams := ⟨[], []⟩
  let st1 := if truthy q.categoria then
      st0.clausula " AND c.tipo = " (.texto (q.categoria.getD ""))
    else st0
  if truthy q.ubicacion then
    st1.clausula " AND c.ubicacion = " (.texto (q.ubicacion.getD ""))
  else st1

/-- The builder of `GET /reportes/historial/pdf`. -/
def construirHistorialPdf (q : QueryHistorial) : ConIndice :=
  let st0 : ConIndice := ⟨[], [], 1⟩
  let st1 := if truthy q.fechaDesde then
      st0.clausula " AND h.fecha >= " "" (.texto (q.fechaDesde.getD ""))
    else st0
  let st2 := if truthy q.fechaHasta then
      st1.clausula " AND h.fecha <= " "" (.texto (q.fechaHasta.getD "" ++ " 23:59:59"))
    else st1
  let st3 := if truthy q.personaFiltro then
      st2.clausula " AND h.persona ILIKE " "" (.texto ("%" ++ q.personaFiltro.getD "" ++ "%"))
    else st2
  { st3 with query := st3.query ++ [.sql " ORDER BY h.fecha DESC"] }

/-- The builder of `GET /reportes/historial`. -/
def construirHistorial (q : QueryHistorial) : ConIndice :=
  let st0 : ConIndice := ⟨[], [], 1⟩
  let st1 := if truthy q.fechaDesde then
      st0.clausula " AND h.fecha >= " "" (.fecha (q.fechaDesde.getD "" ++ "T00:00:00"))
    else st0
  let st2 := if truthy q.fechaHasta then
      st1.clausula " AND h.fecha <= " "" (.fecha (q.fechaHasta.getD "" ++ "T23:59:59"))
    else st1
  let st3 := if truthy q.persona then
      st2.clausula " AND h.persona ILIKE " "" (.texto ("%" ++ q.persona.getD "" ++ "%"))
    else st2
  { st3 with query := st3.query ++ [.sql " ORDER BY h.fecha DESC"] }

/-- The placeholders of a query, in the order they appear. -/
def marcadores : List Trozo → List Nat
  | [] => []
  | .marcador k :: resto => k :: marcadores resto
  | .sql _ :: resto => marcadores resto

/-- The clauses of a query: each placeholder with the text right before it. -/
def clausulas : List Trozo → List (String × Nat)
  | [] => []
  | [_] => []
  | .sql s :: .marcador k :: resto => (s, k) :: clausulas resto
  | _ :: t :: resto => clausulas (t :: resto)

/-- A query and a parameter array fit: the placeholders are `$1..$n` in order,
`n` being the length of the array, and the clause that carries `$k` finds at
position `k` of the array the value that the table `pertenece` gives to its
text. -/
def Encaja (query : List Trozo) (valores : List Valor) (pertenece : List (String × Valor)) :
    Prop :=
  marcadores query = List.range' 1 valores.length ∧
  ∀ c ∈ clausulas query,
    1 ≤ c.2 ∧ ∃ p ∈ pertenece, p.1 = c.1 ∧ valores[c.2 - 1]? = some p.2

instance (query : List Trozo) (valores : List Valor) (pertenece : List (String × Valor)) :
    Decidable (Encaja query valores pertenece) := by
  unfold Encaja
  infer_instance

/-! ## The report endpoints as routes -/

/-- A request to one of the six report endpoints, with its query string. -/
inductive Informe where
  /-- Route `GET /reportes` -/
  | reportes (q : QueryReportes)
  /-- Route `GET /reportes/export/excel` -/
  | exportExcel (q : QueryReportes)
  /-- Route `GET /reportes/export/pdf` -/
  | exportPdf (q : QueryReportes)
  /-- Route `GET /reportes/historial/excel` -/
  | historialExcel (q : QueryHistorial)
  /-- Route `GET /reportes/historial/pdf` -/
  | historialPdf (q : QueryHistorial)
  /-- Route `GET /reportes/historial` -/
  | historial (q : QueryHistorial)
deriving DecidableEq, Repr

/-- What a report endpoint answers with: component rows or movement rows. -/
inductive Datos where
  | componentes (l : Listado FilaReporte)
  | movimientos (l : Listado FilaHistorial)
deriving DecidableEq, Repr

/-- The handler of each report endpoint on a request that passed the session
guard.  Only the first two read the session. -/
def ejecutarInforme (fx : Fechas) (db : Store) (ses : Session) : Informe → Datos
  | .reportes q => .componentes (getReportes db ses q)
  | .exportExcel q => .componentes (getReportesExportExcel db ses q)
  | .exportPdf q => .componentes (getReportesExportPdf db ses q)
  | .historialExcel q => .movimientos (getReportesHistorialExcel fx db q)
  | .historialPdf q => .movimientos (getReportesHistorialPdf fx db q)
  | .historial q => .movimientos (getReportesHistorial fx db q)

/-- Date conversions that reject every text (enough where no date is given). -/
def sinFechas : Fechas := ⟨fun _ => none, fun _ => none⟩

/-! # Theorems -/

/-! ## Stock invariant -/

theorem stockOk_updateCantidad {db : Store} (h : StockOk db) {n : Int} (hn : 0 ≤ n)
    (id : Option Int) : StockOk (updateCantidad db n id) := by
  refine ⟨?_, h.2⟩
  intro c hc
  simp only [updateCantidad, List.mem_map] at hc
  obtain ⟨a, ha, rfl⟩ := hc
  split
  · exact hn
  · exact h.1 a ha

theorem stockOk_updateSumarCantidad {db : Store} (h : StockOk db) {d : Int} (hd : 0 ≤ d)
    (id : Int) : StockOk (updateSumarCantidad db d id) := by
  refine ⟨?_, h.2⟩
  intro c hc
  simp only [updateSumarCantidad, List.mem_map] at hc
  obtain ⟨a, ha, rfl⟩ := hc
  have h0 := h.1 a ha
  split
  · show 0 ≤ a.cantidad + d
    omega
  · exact h0

theorem stockOk_insertHistorial {db : Store} (h : StockOk db) {q : Int} (hq : 0 < q)
    (ahora cid : Int) (mov : String) (p o : Option String) :
    StockOk (insertHistorial db ahora cid mov q p o) := by
  refine ⟨h.1, ?_⟩
  intro m hm
  simp only [insertHistorial, List.mem_append, List.mem_singleton] at hm
  rcases hm with hm | rfl
  · exact h.2 m hm
  · exact hq

/-- Either `POST /historial` leaves the store as it was and does not redirect,
or it went through all its checks and ended in the two writes. -/
theorem postHistorial_cases (ahora : Int) (db : Store) (ses : Session) (body : CuerpoHistorial) :
    ((postHistorial ahora db ses body).2 = db ∧
      (postHistorial ahora db ses body).1 ≠ .redirect "/historial") ∨
    ∃ (user : SessionUser) (q n : Int) (fila : Componente) (resto : List Componente)
      (mov : String) (nueva : Int),
      ses = some user ∧ user.rol = "docente" ∧
      ¬ (truthy body.persona ∧ (selectUsuarioPorNombre db (body.persona.getD "")).length = 0) ∧
      parseInt body.cantidad = some q ∧ 0 < q ∧
      paramEntero body.componente_id = .ok (some n) ∧
      selectComponente db (some n) = fila :: resto ∧
      body.movimiento = some mov ∧
      (((toLowerCase mov = "préstamo" ∨ toLowerCase mov = "salida") ∧ q ≤ fila.cantidad ∧
          nueva = fila.cantidad - q) ∨
        (¬ (toLowerCase mov = "préstamo" ∨ toLowerCase mov = "salida") ∧
          (toLowerCase mov = "devolución" ∨ toLowerCase mov = "ingreso") ∧
          nueva = fila.cantidad + q)) ∧
      postHistorial ahora db ses body = escribirMovimiento ahora db n mov q nueva body := by
  unfold postHistorial
  dsimp only
  repeat' split
  all_goals first
    | (left; exact ⟨rfl, by simp⟩)
    | skip
  · rename_i user hrol hper _ q hq hpos _ _ _ fila resto n hid hsel _ mov hmov hk hc
    right
    exact ⟨user, q, n, fila, resto, mov, _, rfl, by simpa using hrol, hper, hq, by omega, hid, hsel,
      hmov, Or.inl ⟨hk, by omega, rfl⟩, rfl⟩
  · rename_i user hrol hper _ q hq hpos _ _ _ fila resto n hid hsel _ mov hmov hk hc
    right
    exact ⟨user, q, n, fila, resto, mov, _, rfl, by simpa using hrol, hper, hq, by omega, hid, hsel,
      hmov, Or.inr ⟨hk, hc, rfl⟩, rfl⟩

theorem stockOk_escribirMovimiento {db : Store} (h : StockOk db) {q nueva : Int} (hq : 0 < q)
    (hn : 0 ≤ nueva) (ahora n : Int) (mov : String) (body : CuerpoHistorial) :
    StockOk (escribirMovimiento ahora db n mov q nueva body).2 :=
  stockOk_insertHistorial (stockOk_updateCantidad h hn _) hq _ _ _ _ _

theorem mem_of_selectComponente {db : Store} {id : Option Int} {fila : Componente}
    {resto : List Componente} (h : selectComponente db id = fila :: resto) :
    fila ∈ db.componentes ∧ some fila.id = id := by
  have hm : fila ∈ selectComponente db id := by rw [h]; exact List.mem_cons_self _ _
  simpa [selectComponente, List.mem_filter] using hm

theorem stockOk_postHistorial {db : Store} (h : StockOk db) (ahora : Int) (ses : Session)
    (body : CuerpoHistorial) : StockOk (postHistorial ahora db ses body).2 := by
  rcases postHistorial_cases ahora db ses body with ⟨he, _⟩ |
    ⟨user, q, n, fila, resto, mov, nueva, -, -, -, -, hpos, -, hsel, -, hk, he⟩
  · rw [he]; exact h
  · rw [he]
    have hf := h.1 fila (mem_of_selectComponente hsel).1
    refine stockOk_escribirMovimiento h hpos ?_ _ _ _ _
    rcases hk with ⟨-, hle, rfl⟩ | ⟨-, -, rfl⟩ <;> omega

theorem mem_of_selectPrestamo {db : Store} {id : Option Int} {m : Movimiento}
    {resto : List Movimiento} (h : selectPrestamo db id = m :: resto) :
    m ∈ db.historial ∧ some m.id = id := by
  have hm : m ∈ selectPrestamo db id := by rw [h]; exact List.mem_cons_self _ _
  simpa [selectPrestamo, List.mem_filter] using hm

theorem stockOk_postHistorialDevolver {db : Store} (h : StockOk db) (ahora : Int)
    (ses : Session) (body : CuerpoDevolver) :
    StockOk (postHistorialDevolver ahora db ses body).2 := by
  unfold postHistorialDevolver
  repeat' split
  all_goals first
    | exact h
    | skip
  rename_i m resto hsel
  have hm := h.2 m (mem_of_selectPrestamo hsel).1
  exact stockOk_insertHistorial (stockOk_updateSumarCantidad h (le_of_lt hm) _) hm _ _ _ _ _

theorem stockOk_ejecutar {db : Store} (h : StockOk db) (op : Operacion) :
    StockOk (ejecutar db op).2 := by
  cases op with
  | record ahora ses body => exact stockOk_postHistorial h ahora ses body
  | returnLoan ahora ses body => exact stockOk_postHistorialDevolver h ahora ses body

theorem stockOk_ejecutarTodas (ops : List Operacion) :
    ∀ {db : Store}, StockOk db → StockOk (ejecutarTodas db ops) := by
  induction ops with
  | nil => intro db h; exact h
  | cons op ops ih =>
    intro db h
    exact ih (stockOk_ejecutar h op)

/-! ## The checks of `POST /historial` -/

theorem personaAceptada_iff (db : Store) (persona : Option String) :
    personaAceptada db persona ↔
      ¬ (truthy persona ∧ (selectUsuarioPorNombre db (persona.getD "")).length = 0) := by
  unfold personaAceptada selectUsuarioPorNombre
  cases persona with
  | none => simp [truthy]
  | some p =>
    by_cases hp : p = ""
    · simp [truthy, hp]
    · simp [truthy, hp, List.filter_eq_nil_iff]

/-- Past the role, person, quantity and component checks, `POST /historial` is
its stock control followed by the two writes. -/
theorem postHistorial_core (ahora : Int) (db : Store) (user : SessionUser)
    (body : CuerpoHistorial) (q n : Int) (fila : Componente) (resto : List Componente)
    (mov : String) (hrol : user.rol = "docente") (hper : personaAceptada db body.persona)
    (hq : parseInt body.cantidad = some q) (hpos : 0 < q)
    (hid : paramEntero body.componente_id = .ok (some n))
    (hsel : selectComponente db (some n) = fila :: resto) (hmov : body.movimiento = some mov) :
    postHistorial ahora db (some user) body =
      if toLowerCase mov = "préstamo" ∨ toLowerCase mov = "salida" then
        if q > fila.cantidad then (.render "historial" (some msgStockInsuficiente), db)
        else escribirMovimiento ahora db n mov q (fila.cantidad - q) body
      else if toLowerCase mov = "devolución" ∨ toLowerCase mov = "ingreso" then
        escribirMovimiento ahora db n mov q (fila.cantidad + q) body
      else (.send 200 msgTipoInvalido, db) := by
  have hper' := (personaAceptada_iff db body.persona).1 hper
  have hpos' : ¬ q ≤ 0 := by omega
  unfold postHistorial
  simp only [hrol, ne_eq, not_true_eq_false, if_false, hper', hq, hpos', hid, hsel, hmov]

theorem escribirMovimiento_fst (ahora : Int) (db : Store) (n : Int) (mov : String)
    (q nueva : Int) (body : CuerpoHistorial) :
    (escribirMovimiento ahora db n mov q nueva body).1 = .redirect "/historial" := rfl

theorem escribirMovimiento_componentes (ahora : Int) (db : Store) (n : Int) (mov : String)
    (q nueva : Int) (body : CuerpoHistorial) :
    (escribirMovimiento ahora db n mov q nueva body).2.componentes =
      (updateCantidad db nueva (some n)).componentes := rfl

theorem escribirMovimiento_historial (ahora : Int) (db : Store) (n : Int) (mov : String)
    (q nueva : Int) (body : CuerpoHistorial) :
    (escribirMovimiento ahora db n mov q nueva body).2.historial =
      db.historial ++ [{ id := db.historial_id_seq, componente_id := n, movimiento := mov,
                         cantidad := q, persona := orNull body.persona,
                         observaciones := orNull body.observaciones, fecha := ahora }] := rfl

theorem cantidad_of_mem_updateCantidad {db : Store} {nueva n : Int} {c : Componente}
    (hc : c ∈ (updateCantidad db nueva (some n)).componentes) (hid : c.id = n) :
    c.cantidad = nueva := by
  simp only [updateCantidad, List.mem_map] at hc
  obtain ⟨a, _, rfl⟩ := hc
  by_cases ha : some a.id = some n
  · simp [ha]
  · rw [if_neg ha] at hid
    exact absurd (by rw [hid]) ha

theorem cantidadDe_updateCantidad {db : Store} {n : Int} {fila : Componente}
    {resto : List Componente} (hsel : selectComponente db (some n) = fila :: resto)
    (nueva : Int) : cantidadDe (updateCantidad db nueva (some n)) n = some nueva := by
  unfold cantidadDe selectComponente updateCantidad
  unfold selectComponente at hsel
  simp only [List.filter_map]
  have hcomp : ((fun c : Componente => decide (some c.id = some n)) ∘
      fun c : Componente => if some c.id = some n then { c with cantidad := nueva } else c) =
      fun c : Componente => decide (some c.id = some n) := by
    funext c
    simp only [Function.comp]
    split <;> simp_all
  rw [hcomp, hsel]
  have hf : some fila.id = some n := by
    have hm : fila ∈ db.componentes.filter (fun c => decide (some c.id = some n)) := by
      rw [hsel]; exact List.mem_cons_self _ _
    simpa using (List.mem_filter.1 hm).2
  have hf' : fila.id = n := by simpa using hf
  simp [hf']

/-- C2: for a component with current quantity `s` (the row `fila` that the
handler reads) and a `record` request of kind loan (`préstamo`) or exit
(`salida`), in any letter case, with a valid quantity `q` and an accepted
person: the answer is the insufficient-stock error exactly when `q > s`; then
the whole store is unchanged; otherwise the call succeeds and the component's
quantity becomes `s - q`, which is 0 when `q = s`. -/
theorem insufficient_stock_iff (ahora : Int) (db : Store) (user : SessionUser)
    (body : CuerpoHistorial) (q n : Int) (fila : Componente) (resto : List Componente)
    (mov : String) (hrol : user.rol = "docente") (hper : personaAceptada db body.persona)
    (hq : parseInt body.cantidad = some q) (hpos : 0 < q)
    (hid : paramEntero body.componente_id = .ok (some n))
    (hsel : selectComponente db (some n) = fila :: resto) (hmov : body.movimiento = some mov)
    (hk : toLowerCase mov = "préstamo" ∨ toLowerCase mov = "salida") :
    ((postHistorial ahora db (some user) body).1 =
        .render "historial" (some msgStockInsuficiente) ↔ fila.cantidad < q) ∧
    (fila.cantidad < q → (postHistorial ahora db (some user) body).2 = db) ∧
    (q ≤ fila.cantidad →
      (postHistorial ahora db (some user) body).1 = .redirect "/historial" ∧
      cantidadDe (postHistorial ahora db (some user) body).2 n = some (fila.cantidad - q)) ∧
    (q = fila.cantidad → cantidadDe (postHistorial ahora db (some user) body).2 n = some 0) := by
  rw [postHistorial_core ahora db user body q n fila resto mov hrol hper hq hpos hid hsel hmov,
    if_pos hk]
  by_cases hgt : q > fila.cantidad
  · rw [if_pos hgt]
    exact ⟨⟨fun _ => hgt, fun _ => rfl⟩, fun _ => rfl, fun hle => absurd hgt (by omega),
      fun he => absurd hgt (by omega)⟩
  · rw [if_neg hgt]
    have hc : cantidadDe (escribirMovimiento ahora db n mov q (fila.cantidad - q) body).2 n =
        some (fila.cantidad - q) := cantidadDe_updateCantidad hsel _
    refine ⟨⟨fun h => ?_, fun h => absurd h hgt⟩, fun h => absurd h hgt, fun _ => ⟨rfl, hc⟩,
      fun he => ?_⟩
    · rw [escribirMovimiento_fst] at h
      cases h
    · rw [hc, he]; simp

/-- Witness of C2: at quantity 6 a loan of 7 is rejected and the store, with
its quantity 6, stays as it was. -/
theorem insufficient_stock_iff_witness :
    cantidadDe dbPrestado 1 = some 6 ∧
    (postHistorial 101 dbPrestado (some docente) prestamo7).1 =
      .render "historial" (some msgStockInsuficiente) ∧
    (postHistorial 101 dbPrestado (some docente) prestamo7).2 = dbPrestado :=
  have h := insufficient_stock_iff 101 dbPrestado docente prestamo7 7 1
    ⟨1, "Arduino Uno", none, 6, some 3, some 1, none, none⟩ [] "préstamo"
    (by decide) (by decide) (by decide) (by decide) rfl (by decide) (by decide)
    (by decide)
  ⟨by decide, h.1.2 (by decide), h.2.1 (by decide)⟩

/-- C3: for a successful `record` with requested quantity `q` on a component
whose quantity before the call is `p`, the quantity after the call is `p - q`
when the kind is loan or exit and `p + q` when it is return or entry. -/
theorem record_quantity_delta (ahora : Int) (db : Store) (ses : Session)
    (body : CuerpoHistorial) (q n p : Int) (mov : String)
    (hq : parseInt body.cantidad = some q)
    (hid : paramEntero body.componente_id = .ok (some n))
    (hmov : body.movimiento = some mov) (hp : cantidadDe db n = some p)
    (hok : (postHistorial ahora db ses body).1 = .redirect "/historial") :
    ((toLowerCase mov = "préstamo" ∨ toLowerCase mov = "salida") →
      cantidadDe (postHistorial ahora db ses body).2 n = some (p - q)) ∧
    ((toLowerCase mov = "devolución" ∨ toLowerCase mov = "ingreso") →
      cantidadDe (postHistorial ahora db ses body).2 n = some (p + q)) := by
  rcases postHistorial_cases ahora db ses body with ⟨_, hne⟩ |
    ⟨user, q', n', fila, resto, mov', nueva, -, -, -, hq', -, hid', hsel, hmov', hk, he⟩
  · exact absurd hok hne
  · rw [hq] at hq'; rw [hid] at hid'; rw [hmov] at hmov'
    cases hq'; cases hid'; cases hmov'
    have hpf : p = fila.cantidad := by
      unfold cantidadDe at hp
      rw [hsel] at hp
      simpa using hp.symm
    rw [he]
    have hc : cantidadDe (escribirMovimiento ahora db n mov q nueva body).2 n = some nueva :=
      cantidadDe_updateCantidad hsel _
    rw [hc, hpf]
    rcases hk with ⟨hk, -, rfl⟩ | ⟨hnk, hk, rfl⟩
    · refine ⟨fun _ => rfl, fun h => ?_⟩
      rcases hk with hk | hk <;> rcases h with h | h <;> rw [hk] at h <;> exact absurd h (by decide)
    · exact ⟨fun h => absurd h hnk, fun _ => rfl⟩

/-- Witness of C3: from quantity 10 a loan of 4 leaves quantity 6. -/
theorem record_quantity_delta_witness :
    cantidadDe dbEjemplo 1 = some 10 ∧
    cantidadDe (postHistorial 100 dbEjemplo sesDocente prestamo4).2 1 = some (10 - 4) :=
  ⟨by decide,
    (record_quantity_delta 100 dbEjemplo sesDocente prestamo4 4 1 10 "préstamo"
      (by decide) rfl (by decide) (by decide) (by decide)).1 (by decide)⟩

/-- C1: stock non-negativity is an invariant of the ledger operations.  From a
store in which every component quantity is at least 0 and every movement
quantity is above 0, one call of `record` (`POST /historial`) or of `returnLoan`
(`POST /historial/devolver`), successful or not, leaves such a store, and so
does every sequence of such calls run one at a time. -/
theorem stock_nonneg_invariant (db : Store) (h : StockOk db) :
    (∀ op : Operacion, StockOk (ejecutar db op).2) ∧
    (∀ ops : List Operacion, StockOk (ejecutarTodas db ops)) :=
  ⟨fun op => stockOk_ejecutar h op, fun ops => stockOk_ejecutarTodas ops h⟩

/-- Witness of C1 on the sample store: both calls succeed, the quantities are
6 and then 10, and the invariant holds at the end. -/
theorem stock_nonneg_invariant_witness :
    StockOk dbEjemplo ∧
    (ejecutar dbEjemplo (.record 100 sesDocente prestamo4)).1 = .redirect "/historial" ∧
    (ejecutar dbPrestado (.returnLoan 102 sesDocente devolver1)).1 = .redirect "/historial" ∧
    StockOk (ejecutarTodas dbEjemplo opsEjemplo) :=
  ⟨by decide, by decide, by decide, (stock_nonneg_invariant dbEjemplo (by decide)).2 opsEjemplo⟩

/-- Counterexample to C4 as stated: the quantity texts `3.5` and `3abc` are no
integers, yet `parseInt` reads 3 from each, the request is not rejected, a
movement of quantity 3 is appended and the quantity goes from 10 to 13. -/
theorem invalid_quantity_counterexample :
    parseInt (some "3.5") = some 3 ∧ parseInt (some "3abc") = some 3 ∧
    (postHistorial 100 dbEjemplo sesDocente ingreso3punto5).1 = .redirect "/historial" ∧
    (postHistorial 100 dbEjemplo sesDocente ingreso3punto5).2.historial =
      [⟨1, 1, "ingreso", 3, some "Ana", none, 100⟩] ∧
    cantidadDe (postHistorial 100 dbEjemplo sesDocente ingreso3punto5).2 1 = some 13 ∧
    (postHistorial 100 dbEjemplo sesDocente ingreso3abc).1 = .redirect "/historial" ∧
    (postHistorial 100 dbEjemplo sesDocente ingreso3abc).2.historial =
      [⟨1, 1, "ingreso", 3, some "Ana", none, 100⟩] ∧
    cantidadDe (postHistorial 100 dbEjemplo sesDocente ingreso3abc).2 1 = some 13 := by
  decide

/-- C4 (amended): a `record` request whose quantity text `parseInt` reads as
`NaN` or as a number at most 0 leaves the whole store unchanged, whoever sends
it; and when it comes from a teacher session with an accepted person, the
answer is `Cantidad inválida`. -/
theorem invalid_quantity_rejected (ahora : Int) (db : Store) (ses : Session)
    (body : CuerpoHistorial) (hq : ∀ q, parseInt body.cantidad = some q → q ≤ 0) :
    (postHistorial ahora db ses body).2 = db ∧
    (∀ user, ses = some user → user.rol = "docente" → personaAceptada db body.persona →
      (postHistorial ahora db ses body).1 = .send 200 msgCantidadInvalida) := by
  constructor
  · rcases postHistorial_cases ahora db ses body with ⟨he, _⟩ |
      ⟨_, q, _, _, _, _, _, -, -, -, hq', hpos, -, -, -, -, -⟩
    · exact he
    · exact absurd (hq q hq') (by omega)
  · rintro user rfl hrol hper
    have hper' := (personaAceptada_iff db body.persona).1 hper
    unfold postHistorial
    simp only [hrol, ne_eq, not_true_eq_false, if_false, hper']
    cases hp : parseInt body.cantidad with
    | none => rfl
    | some q => simp only [hq q hp, if_true]

/-- Witness of C4 (amended): the quantity texts `abc`, `0` and `-3` are
answered with `Cantidad inválida` and change nothing. -/
theorem invalid_quantity_rejected_witness :
    postHistorial 100 dbEjemplo sesDocente (ingresoCon "abc") =
      (.send 200 msgCantidadInvalida, dbEjemplo) ∧
    postHistorial 100 dbEjemplo sesDocente (ingresoCon "0") =
      (.send 200 msgCantidadInvalida, dbEjemplo) ∧
    postHistorial 100 dbEjemplo sesDocente (ingresoCon "-3") =
      (.send 200 msgCantidadInvalida, dbEjemplo) :=
  have h1 := invalid_quantity_rejected 100 dbEjemplo sesDocente (ingresoCon "abc") (by decide)
  have h2 := invalid_quantity_rejected 100 dbEjemplo sesDocente (ingresoCon "0") (by decide)
  have h3 := invalid_quantity_rejected 100 dbEjemplo sesDocente (ingresoCon "-3") (by decide)
  ⟨Prod.ext (h1.2 docente rfl (by decide) (by decide)) h1.1,
   Prod.ext (h2.2 docente rfl (by decide) (by decide)) h2.1,
   Prod.ext (h3.2 docente rfl (by decide) (by decide)) h3.1⟩

/-- C5: a `record` request from a teacher session whose person field is not
empty and is the `nombre` of no row of `usuarios` is answered with the
unknown-person error and leaves the whole store unchanged; and no request whose
person field is absent or empty gets that answer. -/
theorem unknown_person_rejected (ahora : Int) (db : Store) (user : SessionUser)
    (body : CuerpoHistorial) (p : String) (hrol : user.rol = "docente")
    (hp : body.persona = some p) (hne : p ≠ "") (hno : ∀ u ∈ db.usuarios, u.nombre ≠ p) :
    postHistorial ahora db (some user) body =
      (.render "historial" (some msgPersonaNoRegistrada), db) ∧
    (∀ (ses' : Session) (body' : CuerpoHistorial), truthy body'.persona = false →
      (postHistorial ahora db ses' body').1 ≠
        .render "historial" (some msgPersonaNoRegistrada)) := by
  constructor
  · have hno' : ¬ personaAceptada db body.persona := by
      rw [hp]
      rintro (h | ⟨u, hu, he⟩)
      · simp [truthy, hne] at h
      · exact hno u hu (by simpa using he)
    rw [personaAceptada_iff, not_not] at hno'
    unfold postHistorial
    simp only [hrol, ne_eq, not_true_eq_false, if_false, hno', and_self, if_true]
  · intro ses' body' ht
    unfold postHistorial
    dsimp only
    repeat' split
    all_goals first
      | (rename_i hc; rw [ht] at hc; exact absurd hc.1 (by decide))
      | (intro h; injection h with h1 h2; revert h2; decide)
      | (intro h; injection h)

/-- Witness of C5: a loan to `Zoe`, who is no user, is answered with the
unknown-person error and changes nothing. -/
theorem unknown_person_rejected_witness :
    postHistorial 100 dbEjemplo sesDocente prestamoDesconocido =
      (.render "historial" (some msgPersonaNoRegistrada), dbEjemplo) :=
  (unknown_person_rejected 100 dbEjemplo docente prestamoDesconocido "Zoe"
    (by decide) (by decide) (by decide) (by decide)).1

/-- C6: `returnLoan` called from a teacher session with a movement id the store
accepts.  If no movement has that id the answer is `Préstamo no encontrado` and
the store is unchanged.  Otherwise (some movement has the id) the handler reads
the movement `m` with that id, answers with the redirect, adds exactly
`m.cantidad` to the quantity of every component row whose id is
`m.componente_id`, and appends exactly one movement: kind `devolución`, the
component, quantity and person of `m`, and the notes of the request; the other
tables are unchanged. -/
theorem returnLoan_spec (ahora : Int) (db : Store) (user : SessionUser)
    (body : CuerpoDevolver) (id : Option Int) (hrol : user.rol = "docente")
    (hid : paramEntero body.prestamo_id = .ok id) :
    ((∀ m ∈ db.historial, some m.id ≠ id) →
      postHistorialDevolver ahora db (some user) body =
        (.send 200 msgPrestamoNoEncontrado, db)) ∧
    ((∃ m ∈ db.historial, some m.id = id) → ∃ m resto, selectPrestamo db id = m :: resto) ∧
    (∀ m resto, selectPrestamo db id = m :: resto →
      m ∈ db.historial ∧ some m.id = id ∧
      (postHistorialDevolver ahora db (some user) body).1 = .redirect "/historial" ∧
      (postHistorialDevolver ahora db (some user) body).2.componentes =
        db.componentes.map (fun c =>
          if c.id = m.componente_id then { c with cantidad := c.cantidad + m.cantidad }
          else c) ∧
      (postHistorialDevolver ahora db (some user) body).2.historial =
        db.historial ++ [{ id := db.historial_id_seq, componente_id := m.componente_id,
                           movimiento := "devolución", cantidad := m.cantidad,
                           persona := m.persona, observaciones := body.observaciones,
                           fecha := ahora }] ∧
      (postHistorialDevolver ahora db (some user) body).2.usuarios = db.usuarios ∧
      (postHistorialDevolver ahora db (some user) body).2.categorias = db.categorias ∧
      (postHistorialDevolver ahora db (some user) body).2.ubicaciones = db.ubicaciones) := by
  refine ⟨fun hno => ?_, fun ⟨m, hm, he⟩ => ?_, fun m resto hsel => ?_⟩
  · have hnil : selectPrestamo db id = [] := by
      unfold selectPrestamo
      rw [List.filter_eq_nil_iff]
      intro m hm
      simpa using hno m hm
    unfold postHistorialDevolver
    simp only [hrol, ne_eq, not_true_eq_false, if_false, hid, hnil]
  · have hmem : m ∈ selectPrestamo db id := by
      unfold selectPrestamo
      exact List.mem_filter.2 ⟨hm, by simpa using he⟩
    cases hs : selectPrestamo db id with
    | nil => rw [hs] at hmem; cases hmem
    | cons a l => exact ⟨a, l, rfl⟩
  · have hm := mem_of_selectPrestamo hsel
    have he : postHistorialDevolver ahora db (some user) body =
        (.redirect "/historial",
          insertHistorial (updateSumarCantidad db m.cantidad m.componente_id) ahora
            m.componente_id "devolución" m.cantidad m.persona body.observaciones) := by
      unfold postHistorialDevolver
      simp only [hrol, ne_eq, not_true_eq_false, if_false, hid, hsel]
    rw [he]
    exact ⟨hm.1, hm.2, rfl, rfl, rfl, rfl, rfl, rfl⟩

/-- Witness of C6: after the loan of 4 from 10 (quantity 6), returning
movement 1 brings the quantity back to 10 and appends one `devolución` of 4 for
the same person with the notes of the request; returning movement 7, which does
not exist, is answered with `Préstamo no encontrado`. -/
theorem returnLoan_spec_witness :
    cantidadDe dbPrestado 1 = some 6 ∧
    (postHistorialDevolver 102 dbPrestado (some docente) devolver1).1 =
      .redirect "/historial" ∧
    cantidadDe (postHistorialDevolver 102 dbPrestado (some docente) devolver1).2 1 = some 10 ∧
    (postHistorialDevolver 102 dbPrestado (some docente) devolver1).2.historial =
      dbPrestado.historial ++
        [⟨2, 1, "devolución", 4, some "Ana", some "returned in good condition", 102⟩] ∧
    postHistorialDevolver 102 dbPrestado (some docente) ⟨some "7", none⟩ =
      (.send 200 msgPrestamoNoEncontrado, dbPrestado) :=
  have h := (returnLoan_spec 102 dbPrestado docente devolver1 (some 1) (by decide) rfl).2.2
    ⟨1, 1, "préstamo", 4, some "Ana", none, 100⟩ [] (by decide)
  ⟨by decide, h.2.2.1, by decide, h.2.2.2.2.1,
    (returnLoan_spec 102 dbPrestado docente ⟨some "7", none⟩ (some 7) (by decide) rfl).1
      (by decide)⟩

/-! ## Deleting a component -/

/-- A successful `GET /eliminar/:id` made its writes in this order: the movements
of the component, at most one asset, the component row. -/
theorem getEliminar_cases (destroyOk : String → Bool) (db : Store) (ses : Session)
    (idParam : String) (db' : Store) (efectos : List Efecto)
    (hok : getEliminar destroyOk db ses idParam = (.redirect "/inventario", db', efectos)) :
    ∃ c : Int, pgInteger idParam = some c ∧
      db' = deleteComponente (deleteHistorialDe db c) c ∧
      (efectos = [.deleteHistorial c, .deleteComponente c] ∨
        ∃ pid, efectos = [.deleteHistorial c, .destroy pid, .deleteComponente c]) := by
  cases hrol : checkRole "docente" ses with
  | false => simp [getEliminar, hrol] at hok
  | true =>
    cases hc : pgInteger idParam with
    | none => simp [getEliminar, hrol, hc] at hok
    | some c =>
      refine ⟨c, rfl, ?_⟩
      unfold getEliminar at hok
      simp only [hrol, hc, Bool.not_true, Bool.false_eq_true, if_false] at hok
      split at hok
      · split at hok
        · injection hok with h1 h2
          injection h2 with h2 h3
          exact ⟨h2.symm, Or.inr ⟨_, h3.symm⟩⟩
        · injection hok with h1 h2
          injection h1
      · injection hok with h1 h2
        injection h2 with h2 h3
        exact ⟨h2.symm, Or.inl h3.symm⟩

/-- C7: after a successful `delete(c)` (`GET /eliminar/:id` answering with the
redirect) the ledger holds no movement of component `c`, and it is the old
ledger without the movements of `c`: every movement of another component is
still there, unchanged and in the same order; no component row has id `c`, and
the table is the old one without that row; the other tables are unchanged.
The writes were made in this order: the `DELETE` on `historial` first (after it
the component table is still whole), the asset store (at most once), the
`DELETE` on `componentes` last; running them in that order gives the store. -/
theorem delete_removes_movements (destroyOk : String → Bool) (db : Store) (ses : Session)
    (idParam : String) (db' : Store) (efectos : List Efecto)
    (hok : getEliminar destroyOk db ses idParam = (.redirect "/inventario", db', efectos)) :
    ∃ c : Int, pgInteger idParam = some c ∧
      (∀ m ∈ db'.historial, m.componente_id ≠ c) ∧
      (∀ m, m.componente_id ≠ c → (m ∈ db'.historial ↔ m ∈ db.historial)) ∧
      db'.historial = db.historial.filter (fun m => m.componente_id != c) ∧
      (∀ x ∈ db'.componentes, x.id ≠ c) ∧
      (∀ x, x.id ≠ c → (x ∈ db'.componentes ↔ x ∈ db.componentes)) ∧
      db'.componentes = db.componentes.filter (fun x => x.id != c) ∧
      db'.usuarios = db.usuarios ∧ db'.categorias = db.categorias ∧
      db'.ubicaciones = db.ubicaciones ∧
      (∃ medio : List Efecto, efectos = .deleteHistorial c :: (medio ++ [.deleteComponente c]) ∧
        ∀ e ∈ medio, ∃ pid, e = .destroy pid) ∧
      (aplicar db (.deleteHistorial c)).componentes = db.componentes ∧
      efectos.foldl aplicar db = db' := by
  obtain ⟨c, hc, rfl, hef⟩ := getEliminar_cases destroyOk db ses idParam db' efectos hok
  refine ⟨c, hc, ?_, ?_, rfl, ?_, ?_, rfl, rfl, rfl, rfl, ?_, rfl, ?_⟩
  · intro m hm
    simp only [deleteComponente, deleteHistorialDe, List.mem_filter, bne_iff_ne] at hm
    exact hm.2
  · intro m hm
    simp [deleteComponente, deleteHistorialDe, List.mem_filter, hm]
  · intro x hx
    simp only [deleteComponente, deleteHistorialDe, List.mem_filter, bne_iff_ne] at hx
    exact hx.2
  · intro x hx
    simp [deleteComponente, deleteHistorialDe, List.mem_filter, hx]
  · rcases hef with rfl | ⟨pid, rfl⟩
    · exact ⟨[], rfl, by simp⟩
    · exact ⟨[.destroy pid], rfl, by simp⟩
  · rcases hef with rfl | ⟨pid, rfl⟩ <;> rfl

/-- Witness of C7: deleting component 1 of the two-component store removes its
movement and its row and keeps the movement and the row of component 2. -/
theorem delete_removes_movements_witness :
    ∃ c : Int, pgInteger "1" = some c ∧
      (getEliminar (fun _ => true) dbDos sesDocente "1").2.1.historial =
        dbDos.historial.filter (fun m => m.componente_id != c) ∧
      (getEliminar (fun _ => true) dbDos sesDocente "1").2.1.historial =
        [⟨2, 2, "salida", 1, some "Luis", none, 101⟩] ∧
      (getEliminar (fun _ => true) dbDos sesDocente "1").2.1.componentes =
        [⟨2, "Sensor DHT11", none, 5, some 4, some 1, none, none⟩] :=
  have h := delete_removes_movements (fun _ => true) dbDos sesDocente "1"
    (getEliminar (fun _ => true) dbDos sesDocente "1").2.1
    (getEliminar (fun _ => true) dbDos sesDocente "1").2.2 (by decide)
  h.elim fun c hc => ⟨c, hc.1, hc.2.2.2.1, by decide, by decide⟩

/-! ## The `LIKE` comparison -/

theorem toLowerCaseChar_literal {c : Char} (h : esLiteral c) : esLiteral (toLowerCaseChar c) := by
  unfold toLowerCaseChar
  split
  · rename_i hc
    have hb : (65 ≤ c.toNat ∧ c.toNat ≤ 90) ∨ (192 ≤ c.toNat ∧ c.toNat ≤ 222) := by
      rcases hc with ⟨h1, h2⟩ | ⟨h1, h2, _⟩
      · left
        exact ⟨h1, h2⟩
      · right
        exact ⟨h1, h2⟩
    unfold esLiteral
    rcases hb with ⟨h1, h2⟩ | ⟨h1, h2⟩ <;> interval_cases c.toNat <;> decide
  · exact h

theorem likeAux_percent (p t : List Char) :
    likeAux false ('%' :: p) t = t.tails.any (fun s => likeAux false p s) := by
  simp [likeAux]

theorem likeAux_literal_cons {c : Char} (hc : esLiteral c) (p : List Char) (d : Char)
    (t : List Char) : likeAux false (c :: p) (d :: t) = (c == d && likeAux false p t) := by
  obtain ⟨h1, h2, h3⟩ := hc
  simp [likeAux, h1, h2, h3]

theorem likeAux_literal_nil {c : Char} (hc : esLiteral c) (p : List Char) :
    likeAux false (c :: p) [] = false := by
  obtain ⟨h1, h2, h3⟩ := hc
  simp [likeAux, h1, h3]

/-- A run of literal characters at the head of a pattern matches exactly itself. -/
theorem likeAux_literal_append {p : List Char} (hp : ∀ c ∈ p, esLiteral c)
    (rest : List Char) :
    ∀ t : List Char, likeAux false (p ++ rest) t = true ↔
      ∃ t', t = p ++ t' ∧ likeAux false rest t' = true := by
  induction p with
  | nil => intro t; simp
  | cons c p ih =>
    intro t
    have hc := hp c (List.mem_cons_self _ _)
    have ih' := ih (fun x hx => hp x (List.mem_cons_of_mem _ hx))
    cases t with
    | nil => simp [likeAux_literal_nil hc]
    | cons d t =>
      rw [List.cons_append, likeAux_literal_cons hc, Bool.and_eq_true, ih' t]
      constructor
      · rintro ⟨hcd, t', rfl, ht'⟩
        exact ⟨t', by rw [beq_iff_eq.1 hcd]; rfl, ht'⟩
      · rintro ⟨t', he, ht'⟩
        injection he with h1 h2
        exact ⟨by rw [h1]; exact beq_self_eq_true _, t', h2, ht'⟩

theorem likeAux_percent_only (t : List Char) : likeAux false ['%'] t = true := by
  rw [likeAux_percent, List.any_eq_true]
  exact ⟨[], (List.mem_tails _ _).2 List.nil_suffix, by simp [likeAux]⟩

/-- A pattern `%p%` whose `p` is made of literal characters matches exactly the
texts that contain `p`. -/
theorem likeAux_contains {p : List Char} (hp : ∀ c ∈ p, esLiteral c) (t : List Char) :
    likeAux false ('%' :: (p ++ ['%'])) t = true ↔ p <:+: t := by
  rw [likeAux_percent, List.any_eq_true]
  constructor
  · rintro ⟨s, hs, hm⟩
    obtain ⟨t', rfl, -⟩ := (likeAux_literal_append hp ['%'] s).1 hm
    obtain ⟨s0, rfl⟩ := (List.mem_tails _ _).1 hs
    exact ⟨s0, t', by simp⟩
  · rintro ⟨s0, t', rfl⟩
    refine ⟨p ++ t', (List.mem_tails _ _).2 ⟨s0, by simp⟩, ?_⟩
    exact (likeAux_literal_append hp ['%'] _).2 ⟨t', rfl, likeAux_percent_only t'⟩

/-- With a search text free of `%`, `_` and backslash, the condition
`LOWER(nombre) LIKE LOWER('%s%')` says that the name contains the text, both in
lower case. -/
theorem lowerLike_contains {s : String} (hs : ∀ c ∈ s.data, esLiteral c) (nombre : String) :
    lowerLike nombre ("%" ++ s ++ "%") = true ↔
      (toLowerCase s).data <:+: (toLowerCase nombre).data := by
  unfold lowerLike
  have hpat : (toLowerCase ("%" ++ s ++ "%")).data =
      '%' :: ((toLowerCase s).data ++ ['%']) := by
    simp only [toLowerCase, String.data_append, List.map_append]
    have h2 : toLowerCaseChar '%' = '%' := by decide
    simp [h2]
  rw [hpat]
  apply likeAux_contains
  intro c hc
  simp only [toLowerCase, List.mem_map] at hc
  obtain ⟨a, ha, rfl⟩ := hc
  exact toLowerCaseChar_literal (hs a ha)

/-! ## Filters of `GET /inventario` -/

theorem filtroEntero_iff {campo : Option String} {v : Option Int}
    (h : paramFiltro campo = .ok v) (col : Option Int) :
    (!truthy campo || sqlEq col v) = true ↔
      ∀ t, campo = some t → t ≠ "" → ∃ n, pgInteger t = some n ∧ col = some n := by
  cases campo with
  | none => simp [truthy]
  | some t =>
    by_cases ht : t = ""
    · simp [truthy, ht]
    · have htr : truthy (some t) = true := by simp [truthy, ht]
      unfold paramFiltro paramEntero at h
      rw [if_pos htr] at h
      cases hn : pgInteger t with
      | none => simp [hn] at h
      | some n =>
        simp only [hn, Except.ok.injEq] at h
        subst h
        rw [htr]
        simp only [Bool.not_true, Bool.false_or]
        constructor
        · intro hb t' ht' _
          cases ht'
          refine ⟨n, hn, ?_⟩
          cases col with
          | none => simp [sqlEq] at hb
          | some a =>
            have : a = n := by simpa [sqlEq] using hb
            rw [this]
        · intro hall
          obtain ⟨n', hn', hcol⟩ := hall t rfl ht
          rw [hn] at hn'
          cases hn'
          rw [hcol]
          simp [sqlEq]

theorem filtroBusqueda_iff (busqueda : Option String) (nombre : String) :
    (!truthy busqueda || lowerLike nombre ("%" ++ busqueda.getD "" ++ "%")) = true ↔
      ∀ s, busqueda = some s → s ≠ "" → lowerLike nombre ("%" ++ s ++ "%") = true := by
  cases busqueda with
  | none => simp [truthy]
  | some s =>
    by_cases hs : s = ""
    · simp [truthy, hs]
    · simp [truthy, hs]

theorem mem_joinComponentes {db : Store} {r : FilaJoin} (h : r ∈ joinComponentes db) :
    r.c ∈ db.componentes := by
  simp only [joinComponentes, List.mem_flatMap, List.mem_map] at h
  obtain ⟨c, hc, _, _, _, _, rfl⟩ := h
  exact hc

/-- Counterexample to C8 as stated: the search text `a_d` with category 3
returns `Arduino Uno`, whose name does not contain `a_d` in any letter case
(the `_` of the text is read by `LIKE` as any one character). -/
theorem inventory_filters_counterexample :
    getInventario dbDos ⟨some "a_d", some "3"⟩ =
      .filas "inventario"
        [⟨1, "Arduino Uno", none, 6, none,
          some "https://res.cloudinary.com/demo/image/upload/v17/inventario/uno.png",
          some "Microcontroladores", some "Armario"⟩] ∧
    ¬ ((toLowerCase "a_d").data <:+: (toLowerCase "Arduino Uno").data) := by
  decide

/-- C8 (amended): when the store accepts the query, `GET /inventario` returns
exactly the joined component rows whose lower-cased name matches the `LIKE`
pattern `%s%` lower-cased (when a search text `s` is given and not empty) and
whose category id equals the given one (when a category is given and not
empty); an absent or empty filter imposes no restriction.  When `s` holds none
of `%`, `_` and the backslash, the first condition says that the name contains
`s`, compared in lower case. -/
theorem inventory_filters_conjunctive (db : Store) (q : QueryInventario)
    (rows : List FilaJoin) (hsel : selectInventario db q = .ok rows) :
    getInventario db q = .filas "inventario" (rows.map filaInventario) ∧
    (∀ r ∈ rows, r.c ∈ db.componentes) ∧
    (∀ r, r ∈ rows ↔ r ∈ joinComponentes db ∧
      (∀ s, q.busqueda = some s → s ≠ "" → lowerLike r.c.nombre ("%" ++ s ++ "%") = true) ∧
      (∀ t, q.tipo = some t → t ≠ "" → ∃ n, pgInteger t = some n ∧ r.c.tipo = some n)) ∧
    (∀ s, q.busqueda = some s → (∀ c ∈ s.data, esLiteral c) →
      ∀ r, r ∈ rows ↔ r ∈ joinComponentes db ∧
        (toLowerCase s).data <:+: (toLowerCase r.c.nombre).data ∧
        (∀ t, q.tipo = some t → t ≠ "" → ∃ n, pgInteger t = some n ∧ r.c.tipo = some n)) := by
  have hmem : ∀ r, r ∈ rows ↔ r ∈ joinComponentes db ∧
      (∀ s, q.busqueda = some s → s ≠ "" → lowerLike r.c.nombre ("%" ++ s ++ "%") = true) ∧
      (∀ t, q.tipo = some t → t ≠ "" → ∃ n, pgInteger t = some n ∧ r.c.tipo = some n) := by
    intro r
    unfold selectInventario at hsel
    cases hp : paramFiltro q.tipo with
    | error e => simp [hp] at hsel
    | ok tipo =>
      simp only [hp, Except.ok.injEq] at hsel
      subst hsel
      rw [(List.perm_insertionSort _ _).mem_iff, List.mem_filter, Bool.and_eq_true,
        filtroEntero_iff hp, filtroBusqueda_iff]
  refine ⟨?_, fun r hr => mem_joinComponentes ((hmem r).1 hr).1, hmem, ?_⟩
  · unfold getInventario
    rw [hsel]
  · intro s hs hlit r
    rw [hmem r]
    have hiff := lowerLike_contains hlit r.c.nombre
    constructor
    · rintro ⟨hj, hb, ht⟩
      refine ⟨hj, ?_, ht⟩
      by_cases he : s = ""
      · subst he
        exact ⟨[], (toLowerCase r.c.nombre).data, rfl⟩
      · exact hiff.1 (hb s hs he)
    · rintro ⟨hj, hb, ht⟩
      refine ⟨hj, ?_, ht⟩
      intro s' hs' _
      rw [hs] at hs'
      cases hs'
      exact hiff.2 hb

/-- Witness of C8 (amended): the search text `SENSOR` with no category returns
exactly the row of `Sensor DHT11`. -/
theorem inventory_filters_conjunctive_witness :
    getInventario dbDos ⟨some "SENSOR", none⟩ =
      .filas "inventario"
        [⟨2, "Sensor DHT11", none, 5, none, none, some "Sensores", some "Armario"⟩] :=
  (inventory_filters_conjunctive dbDos ⟨some "SENSOR", none⟩
    [⟨⟨2, "Sensor DHT11", none, 5, some 4, some 1, none, none⟩, some ⟨4, "Sensores"⟩,
      some ⟨1, "Armario"⟩⟩] rfl).1

/-! ## Report routes at concrete filters -/

/-- C9 at a failing input: with the filter `categoria=3` the on-screen report
and the spreadsheet export hold the one component of category 3, while the PDF
export, which reads no filter, holds both components; and with no filter, on
the store whose rows are stored in the other order, the on-screen report is
ordered by name while the spreadsheet export, which has no `ORDER BY`, is not. -/
theorem component_exports_at_filter :
    getReportes dbDos sesDocente filtroCategoria3 =
      .filas "reportes"
        [⟨some 1, "Arduino Uno", some "Microcontroladores", some "Armario", 6⟩] ∧
    getReportesExportExcel dbDos sesDocente filtroCategoria3 =
      .filas "componentes.xlsx"
        [⟨none, "Arduino Uno", some "Microcontroladores", some "Armario", 6⟩] ∧
    getReportesExportPdf dbDos sesDocente filtroCategoria3 =
      .filas "componentes.pdf"
        [⟨none, "Arduino Uno", some "Microcontroladores", some "Armario", 6⟩,
         ⟨none, "Sensor DHT11", some "Sensores", some "Armario", 5⟩] ∧
    getReportes dbInvertido sesDocente ⟨none, none⟩ =
      .filas "reportes"
        [⟨some 1, "Arduino Uno", some "Microcontroladores", some "Armario", 6⟩,
         ⟨some 2, "Sensor DHT11", some "Sensores", some "Armario", 5⟩] ∧
    getReportesExportExcel dbInvertido sesDocente ⟨none, none⟩ =
      .filas "componentes.xlsx"
        [⟨none, "Sensor DHT11", some "Sensores", some "Armario", 5⟩,
         ⟨none, "Arduino Uno", some "Microcontroladores", some "Armario", 6⟩] := by
  decide

/-- C10 at a failing input: with the filter `persona=Ana`, whatever the date
conversions, the on-screen listing holds the one movement of Ana, while the
spreadsheet export, which reads no filter, and the PDF export, which reads
`personaFiltro` and not `persona`, hold both movements. -/
theorem movement_exports_at_filter (fx : Fechas) :
    getReportesHistorial fx dbDos filtroAna =
      .filas "reportes" [⟨1, "Arduino Uno", "préstamo", 4, some "Ana", none, 100⟩] ∧
    getReportesHistorialExcel fx dbDos filtroAna =
      .filas "historial.xlsx"
        [⟨2, "Sensor DHT11", "salida", 1, some "Luis", none, 101⟩,
         ⟨1, "Arduino Uno", "préstamo", 4, some "Ana", none, 100⟩] ∧
    getReportesHistorialPdf fx dbDos filtroAna =
      .filas "historial.pdf"
        [⟨2, "Sensor DHT11", "salida", 1, some "Luis", none, 101⟩,
         ⟨1, "Arduino Uno", "préstamo", 4, some "Ana", none, 100⟩] := by
  have h1 : selectHistorial dbDos none none (some "Ana") =
      [⟨1, "Arduino Uno", "préstamo", 4, some "Ana", none, 100⟩] := by decide
  have h2 : ordenFechaDesc (joinHistorial dbDos) =
      [⟨2, "Sensor DHT11", "salida", 1, some "Luis", none, 101⟩,
       ⟨1, "Arduino Uno", "préstamo", 4, some "Ana", none, 100⟩] := by decide
  have h3 : selectHistorial dbDos none none none =
      [⟨2, "Sensor DHT11", "salida", 1, some "Luis", none, 101⟩,
       ⟨1, "Arduino Uno", "préstamo", 4, some "Ana", none, 100⟩] := by decide
  refine ⟨?_, ?_, ?_⟩
  · show Listado.filas "reportes" (selectHistorial dbDos none none (some "Ana")) = _
    rw [h1]
  · show Listado.filas "historial.xlsx" (ordenFechaDesc (joinHistorial dbDos)) = _
    rw [h2]
  · show Listado.filas "historial.pdf" (selectHistorial dbDos none none none) = _
    rw [h3]

/-! ## The session guard -/

/-- C11: for every request whose session holds no user and whose path is
neither `/login` nor `/logout`, the guard answers with a redirect to `/login`
and does not call `next()`: whatever the routes registered after it would do,
none of them runs, the answer does not depend on the store and the store is
left as it was. -/
theorem guard_redirects_unauthenticated (path : String) (hlogin : path ≠ "/login")
    (hlogout : path ≠ "/logout") :
    guardia path none = .responder (.redirect "/login") ∧
    (∀ (α : Type) (db : α) (rutas : α → Respuesta × α),
      trasGuardia path none db rutas = (.redirect "/login", db)) := by
  have hg : guardia path none = .responder (.redirect "/login") := by
    unfold guardia
    rw [if_neg (by simp [hlogin, hlogout])]
    rfl
  refine ⟨hg, fun α db rutas => ?_⟩
  unfold trasGuardia
  rw [hg]

/-- Witness of C11: an unauthenticated `POST /historial` is redirected to
`/login` and the ledger handler does not run. -/
theorem guard_redirects_unauthenticated_witness :
    trasGuardia "/historial" none dbEjemplo
      (fun db => postHistorial 100 db none prestamo4) = (.redirect "/login", dbEjemplo) :=
  (guard_redirects_unauthenticated "/historial" (by decide) (by decide)).2 Store dbEjemplo _

/-! ## Role gate of the state-changing routes -/

theorem checkRole_no_docente {user : SessionUser} (h : user.rol ≠ "docente") :
    checkRole "docente" (some user) = false := by
  simp [checkRole, h]

/-- C12: for every authenticated session whose role is not `docente` and every
state-changing operation (create or delete a user; create, update or delete a
component; create, rename or delete a category or a location; record a
movement; return a loan), the answer is HTTP 403 and the store is left
unchanged; the delete of a component makes no write and no call to the asset
store either. -/
theorem non_admin_forbidden (ent : Entorno) (db : Store) (user : SessionUser)
    (hrol : user.rol ≠ "docente") (op : Cambio) :
    (∃ cuerpo, ejecutarCambio ent db (some user) op = (some (.send 403 cuerpo), db)) ∧
    (∀ id, (getEliminar ent.destroyOk db (some user) id).2.2 = []) := by
  have hc := checkRole_no_docente hrol
  constructor
  · have hget : ∀ id, getEliminar ent.destroyOk db (some user) id =
        (.send 403 "Acceso denegado", db, []) := by
      intro id
      simp [getEliminar, hc]
    have hpost : ∀ body, postHistorial ent.ahora db (some user) body =
        (.send 403 msgNoAutorizado, db) := by
      intro body
      simp [postHistorial, hrol]
    have hdev : ∀ body, postHistorialDevolver ent.ahora db (some user) body =
        (.send 403 msgNoAutorizado, db) := by
      intro body
      simp [postHistorialDevolver, hrol]
    cases op with
    | eliminarComponente id => exact ⟨"Acceso denegado", by simp [ejecutarCambio, hget]⟩
    | registrarMovimiento body => exact ⟨msgNoAutorizado, by simp [ejecutarCambio, responde, hpost]⟩
    | devolverPrestamo body => exact ⟨msgNoAutorizado, by simp [ejecutarCambio, responde, hdev]⟩
    | _ => exact ⟨"Acceso denegado", by simp [ejecutarCambio, trasCheckRole, hc]⟩
  · intro id
    simp [getEliminar, hc]

/-- Witness of C12: the student Ana may neither create a user nor record a
movement. -/
theorem non_admin_forbidden_witness :
    ejecutarCambio entEjemplo dbEjemplo sesAlumno
        (.crearUsuario ⟨some "Eva", some "eva", some "clave", some "docente"⟩) =
      (some (.send 403 "Acceso denegado"), dbEjemplo) ∧
    ejecutarCambio entEjemplo dbEjemplo sesAlumno (.registrarMovimiento prestamo4) =
      (some (.send 403 msgNoAutorizado), dbEjemplo) ∧
    (∃ cuerpo, ejecutarCambio entEjemplo dbEjemplo sesAlumno (.eliminarComponente "1") =
      (some (.send 403 cuerpo), dbEjemplo)) :=
  ⟨by decide, by decide,
    (non_admin_forbidden entEjemplo dbEjemplo ⟨2, "Ana", "ana", "alumno"⟩ (by decide)
      (.eliminarComponente "1")).1⟩

/-! ## Order of the checks, appended movement, repeated returns -/

/-- A teacher's request whose person is not empty and names no user is answered
with the unknown-person error, whatever its other fields hold. -/
theorem postHistorial_persona_desconocida (ahora : Int) (db : Store) (user : SessionUser)
    (body : CuerpoHistorial) (p : String) (hrol : user.rol = "docente")
    (hp : body.persona = some p) (hne : p ≠ "") (hno : ∀ u ∈ db.usuarios, u.nombre ≠ p) :
    postHistorial ahora db (some user) body =
      (.render "historial" (some msgPersonaNoRegistrada), db) := by
  have hno' : ¬ personaAceptada db body.persona := by
    rw [hp]
    rintro (h | ⟨u, hu, he⟩)
    · simp [truthy, hne] at h
    · exact hno u hu (by simpa using he)
  rw [personaAceptada_iff, not_not] at hno'
  unfold postHistorial
  simp only [hrol, ne_eq, not_true_eq_false, if_false, hno', and_self, if_true]

/-- Counterexample to C15 as stated: the quantity text `abc` is invalid and the
person `Zoe` is no user; the answer is the unknown-person error, not
`Cantidad inválida`. -/
theorem validation_order_counterexample :
    parseInt prestamoInvalidoDesconocido.cantidad = none ∧
    postHistorial 100 dbEjemplo sesDocente prestamoInvalidoDesconocido =
      (.render "historial" (some msgPersonaNoRegistrada), dbEjemplo) ∧
    (postHistorial 100 dbEjemplo sesDocente prestamoInvalidoDesconocido).1 ≠
      .send 200 msgCantidadInvalida := by
  decide

/-- C15 (amended): `record` checks the person first and the quantity second.
For every request from a teacher session whose quantity is invalid (`parseInt`
reads `NaN` or a number at most 0) and whose person is not empty and names no
user, the answer is the unknown-person error, not `Cantidad inválida`, and the
store is unchanged. -/
theorem validation_order_person_first (ahora : Int) (db : Store) (user : SessionUser)
    (body : CuerpoHistorial) (p : String) (hrol : user.rol = "docente")
    (hq : ∀ q, parseInt body.cantidad = some q → q ≤ 0)
    (hp : body.persona = some p) (hne : p ≠ "") (hno : ∀ u ∈ db.usuarios, u.nombre ≠ p) :
    (postHistorial ahora db (some user) body).1 =
      .render "historial" (some msgPersonaNoRegistrada) ∧
    (postHistorial ahora db (some user) body).1 ≠ .send 200 msgCantidadInvalida ∧
    (postHistorial ahora db (some user) body).2 = db := by
  have _ := hq
  rw [postHistorial_persona_desconocida ahora db user body p hrol hp hne hno]
  exact ⟨rfl, by intro h; injection h, rfl⟩

/-- Witness of C15 (amended), on the loan of `abc` units to `Zoe`. -/
theorem validation_order_person_first_witness :
    (postHistorial 100 dbEjemplo (some docente) prestamoInvalidoDesconocido).1 =
      .render "historial" (some msgPersonaNoRegistrada) ∧
    (postHistorial 100 dbEjemplo (some docente) prestamoInvalidoDesconocido).1 ≠
      .send 200 msgCantidadInvalida ∧
    (postHistorial 100 dbEjemplo (some docente) prestamoInvalidoDesconocido).2 = dbEjemplo :=
  validation_order_person_first 100 dbEjemplo docente prestamoInvalidoDesconocido "Zoe"
    (by decide) (by decide) (by decide) (by decide) (by decide)

theorem updateCantidad_componentes (db : Store) (nueva n : Int) :
    (updateCantidad db nueva (some n)).componentes =
      db.componentes.map (fun c => if c.id = n then { c with cantidad := nueva } else c) := by
  unfold updateCantidad
  simp only [Option.some.injEq]

/-- C17: the ledger is append-only under `record`.  A successful call appends
exactly one movement: its component is the requested one, its kind the
requested kind as sent, its quantity the requested quantity, its person and
notes those of the request (`NULL` when empty), its date the clock.  Every
movement present before is still there, unchanged and in place; the component
table changes only in the quantity of the rows of the requested component;
the other tables are unchanged. -/
theorem record_appends_one_movement (ahora : Int) (db : Store) (ses : Session)
    (body : CuerpoHistorial) (db' : Store)
    (hok : postHistorial ahora db ses body = (.redirect "/historial", db')) :
    ∃ (q n : Int) (mov : String) (nueva : Int),
      parseInt body.cantidad = some q ∧
      paramEntero body.componente_id = .ok (some n) ∧
      body.movimiento = some mov ∧
      db'.historial = db.historial ++
        [{ id := db.historial_id_seq, componente_id := n, movimiento := mov, cantidad := q,
           persona := orNull body.persona, observaciones := orNull body.observaciones,
           fecha := ahora }] ∧
      db'.componentes =
        db.componentes.map (fun c => if c.id = n then { c with cantidad := nueva } else c) ∧
      (∀ c, c.id ≠ n → (c ∈ db'.componentes ↔ c ∈ db.componentes)) ∧
      db'.usuarios = db.usuarios ∧ db'.categorias = db.categorias ∧
      db'.ubicaciones = db.ubicaciones := by
  rcases postHistorial_cases ahora db ses body with ⟨_, hne⟩ |
    ⟨user, q, n, fila, resto, mov, nueva, -, -, -, hq, -, hid, -, hmov, -, he⟩
  · rw [hok] at hne
    exact absurd rfl hne
  · rw [hok] at he
    have hdb : db' = (escribirMovimiento ahora db n mov q nueva body).2 := by rw [← he]
    have hcomp : db'.componentes =
        db.componentes.map (fun c => if c.id = n then { c with cantidad := nueva } else c) := by
      rw [hdb, escribirMovimiento_componentes, updateCantidad_componentes]
    refine ⟨q, n, mov, nueva, hq, hid, hmov, ?_, hcomp, ?_, ?_, ?_, ?_⟩
    · rw [hdb, escribirMovimiento_historial]
    · intro c hc
      rw [hcomp, List.mem_map]
      constructor
      · rintro ⟨a, ha, rfl⟩
        by_cases h : a.id = n
        · rw [if_pos h] at hc
          exact absurd h hc
        · rw [if_neg h]
          exact ha
      · intro hmem
        exact ⟨c, hmem, by rw [if_neg hc]⟩
    · rw [hdb]; rfl
    · rw [hdb]; rfl
    · rw [hdb]; rfl

/-- Witness of C17: the loan of 4 appends one movement to the empty ledger. -/
theorem record_appends_one_movement_witness :
    ∃ (q n : Int) (mov : String),
      dbPrestado.historial = dbEjemplo.historial ++
        [⟨dbEjemplo.historial_id_seq, n, mov, q, orNull prestamo4.persona,
          orNull prestamo4.observaciones, 100⟩] ∧
      dbPrestado.historial = [⟨1, 1, "préstamo", 4, some "Ana", none, 100⟩] :=
  (record_appends_one_movement 100 dbEjemplo sesDocente prestamo4 dbPrestado (by decide)).elim
    fun q h => h.elim fun n h => h.elim fun mov h => h.elim fun _ h =>
      ⟨q, n, mov, h.2.2.2.1, by decide⟩

/-- One return of `m`: the answer and the store it leaves. -/
theorem postHistorialDevolver_ok (ahora : Int) (db : Store) (user : SessionUser)
    (body : CuerpoDevolver) (id : Option Int) (m : Movimiento) (resto : List Movimiento)
    (hrol : user.rol = "docente") (hid : paramEntero body.prestamo_id = .ok id)
    (hsel : selectPrestamo db id = m :: resto) :
    postHistorialDevolver ahora db (some user) body =
      (.redirect "/historial",
        insertHistorial (updateSumarCantidad db m.cantidad m.componente_id) ahora
          m.componente_id "devolución" m.cantidad m.persona body.observaciones) := by
  unfold postHistorialDevolver
  simp only [hrol, ne_eq, not_true_eq_false, if_false, hid, hsel]

/-- After a return the movement read for the same id is the same one. -/
theorem selectPrestamo_insertHistorial (db : Store) (delta cid : Int) (id : Option Int)
    (m : Movimiento) (resto : List Movimiento) (hsel : selectPrestamo db id = m :: resto)
    (ahora c2 : Int) (mov : String) (q : Int) (p o : Option String) :
    ∃ resto', selectPrestamo
      (insertHistorial (updateSumarCantidad db delta cid) ahora c2 mov q p o) id =
        m :: resto' := by
  unfold selectPrestamo at hsel ⊢
  simp only [insertHistorial, updateSumarCantidad, List.filter_append, hsel, List.cons_append]
  exact ⟨_, rfl⟩

/-- C16: `returnLoan` does not check what it returns.  For every movement `m`
that the store holds under the requested id, of whatever kind and whatever was
returned before, each of `n` calls in a row (one per clock value) from a teacher
session succeeds; together they add `n * m.cantidad` to the quantity of every
row of `m`'s component and append `n` movements of kind `devolución`. -/
theorem returnLoan_unchecked (db : Store) (user : SessionUser) (body : CuerpoDevolver)
    (id : Option Int) (m : Movimiento) (resto : List Movimiento)
    (hrol : user.rol = "docente") (hid : paramEntero body.prestamo_id = .ok id)
    (hsel : selectPrestamo db id = m :: resto) (tiempos : List Int) :
    (devolverVeces (some user) body tiempos db).1 =
      List.replicate tiempos.length (.redirect "/historial") ∧
    (devolverVeces (some user) body tiempos db).2.componentes =
      db.componentes.map (fun c =>
        if c.id = m.componente_id then
          { c with cantidad := c.cantidad + (tiempos.length : Int) * m.cantidad }
        else c) ∧
    (devolverVeces (some user) body tiempos db).2.historial =
      db.historial ++ devoluciones m body.observaciones db.historial_id_seq tiempos ∧
    (devoluciones m body.observaciones db.historial_id_seq tiempos).length = tiempos.length := by
  induction tiempos generalizing db resto with
  | nil =>
    refine ⟨rfl, ?_, by simp [devolverVeces, devoluciones], rfl⟩
    simp only [devolverVeces, List.length_nil, Nat.cast_zero, zero_mul, add_zero]
    have hfun : (fun c : Componente => if c.id = m.componente_id then
        { c with cantidad := c.cantidad } else c) = fun c => c := by
      funext c
      split <;> rfl
    rw [hfun, List.map_id']
  | cons t ts ih =>
    have h1 := postHistorialDevolver_ok t db user body id m resto hrol hid hsel
    obtain ⟨resto', hsel'⟩ := selectPrestamo_insertHistorial db m.cantidad m.componente_id id m
      resto hsel t m.componente_id "devolución" m.cantidad m.persona body.observaciones
    obtain ⟨ih1, ih2, ih3, ih4⟩ := ih _ resto' hsel'
    simp only [devolverVeces, h1]
    refine ⟨?_, ?_, ?_, ?_⟩
    · rw [ih1]
      rfl
    · rw [ih2]
      simp only [insertHistorial, updateSumarCantidad, List.map_map]
      apply List.map_congr_left
      intro c _
      simp only [Function.comp]
      by_cases hc : c.id = m.componente_id
      · simp only [hc, if_true, List.length_cons, Nat.cast_add, Nat.cast_one]
        congr 1
        ring
      · simp only [hc, if_false]
    · rw [ih3]
      simp [insertHistorial, updateSumarCantidad, devoluciones]
    · simp [devoluciones] at ih4 ⊢
      exact ih4

/-- Witness of C16: returning movement 1 (a loan of 4, quantity now 6) twice
succeeds twice, leaves quantity 14 and appends two `devolución` movements. -/
theorem returnLoan_unchecked_witness :
    (devolverVeces (some docente) devolver1 [102, 103] dbPrestado).1 =
      [.redirect "/historial", .redirect "/historial"] ∧
    cantidadDe (devolverVeces (some docente) devolver1 [102, 103] dbPrestado).2 1 =
      some 14 ∧
    (devolverVeces (some docente) devolver1 [102, 103] dbPrestado).2.historial =
      dbPrestado.historial ++
        [⟨2, 1, "devolución", 4, some "Ana", some "returned in good condition", 102⟩,
         ⟨3, 1, "devolución", 4, some "Ana", some "returned in good condition", 103⟩] :=
  have h := returnLoan_unchecked dbPrestado docente devolver1 (some 1)
    ⟨1, 1, "préstamo", 4, some "Ana", none, 100⟩ [] (by decide) rfl (by decide) [102, 103]
  ⟨h.1, by decide, h.2.2.1⟩

/-! ## Concurrent records -/

/-- What is left of a request after the stock control, run alone. -/
theorem pasos_leerComponente (ahora : Int) (user : SessionUser) (body : CuerpoHistorial)
    (db : Store) (hrol : user.rol = "docente")
    (hper : ¬ (truthy body.persona ∧
      (selectUsuarioPorNombre db (body.persona.getD "")).length = 0)) (n : Nat) :
    pasos ahora (some user) body (n + 2) (leerComponente db body, db) =
      (.fin (postHistorial ahora db (some user) body).1,
        (postHistorial ahora db (some user) body).2) := by
  unfold postHistorial
  simp only [hrol, ne_eq, not_true_eq_false, if_false, hper]
  unfold leerComponente
  have hfin : ∀ (k : Nat) (r : Respuesta) (d : Store),
      pasos ahora (some user) body k (.fin r, d) = (.fin r, d) := by
    intro k
    induction k with
    | zero => intro r d; rfl
    | succ k ih => intro r d; simp only [pasos, paso]; exact ih r d
  have hact : ∀ (idNum : Int) (mov : String) (q nueva : Int),
      pasos ahora (some user) body (n + 2) (.porActualizar idNum mov q nueva, db) =
        (.fin (escribirMovimiento ahora db idNum mov q nueva body).1,
          (escribirMovimiento ahora db idNum mov q nueva body).2) := by
    intro idNum mov q nueva
    simp only [pasos, paso]
    exact hfin n _ _
  cases hq : parseInt body.cantidad with
  | none => exact hfin _ _ _
  | some q =>
    dsimp only
    by_cases hpos : q ≤ 0
    · simp only [hpos, if_true]
      exact hfin _ _ _
    · simp only [hpos, if_false]
      cases hid : paramEntero body.componente_id with
      | error e => exact hfin _ _ _
      | ok id =>
        dsimp only
        split
        · rename_i fila resto idNum hsel
          cases hmov : body.movimiento with
          | none => exact hfin _ _ _
          | some mov =>
            dsimp only
            split
            · split
              · exact hfin _ _ _
              · exact hact _ _ _ _
            · split
              · exact hact _ _ _ _
              · exact hfin _ _ _
        · exact hfin _ _ _

/-- The step model refines the handler: a request run alone, four steps from
the start, ends with the answer and the store of `postHistorial`. -/
theorem pasos_eq_postHistorial (ahora : Int) (ses : Session) (body : CuerpoHistorial)
    (db : Store) :
    pasos ahora ses body 4 (.inicio, db) =
      (.fin (postHistorial ahora db ses body).1, (postHistorial ahora db ses body).2) := by
  cases ses with
  | none => rfl
  | some user =>
    by_cases hrol : user.rol = "docente"
    · by_cases ht : truthy body.persona = true
      · by_cases hl : (selectUsuarioPorNombre db (body.persona.getD "")).length = 0
        · simp [pasos, paso, postHistorial, hrol, ht, hl]
        · have hper : ¬ (truthy body.persona ∧
              (selectUsuarioPorNombre db (body.persona.getD "")).length = 0) := fun h => hl h.2
          have h1 : paso ahora (some user) body db .inicio = (.trasPersona, db) := by
            simp [paso, hrol, ht, hl]
          show pasos ahora (some user) body 3 (paso ahora (some user) body db .inicio) = _
          rw [h1]
          exact pasos_leerComponente ahora user body db hrol hper 0
      · have hper : ¬ (truthy body.persona ∧
            (selectUsuarioPorNombre db (body.persona.getD "")).length = 0) := fun h => ht h.1
        have h1 : paso ahora (some user) body db .inicio = (leerComponente db body, db) := by
          simp [paso, hrol, ht]
        show pasos ahora (some user) body 3 (paso ahora (some user) body db .inicio) = _
        rw [h1]
        exact pasos_leerComponente ahora user body db hrol hper 1
    · simp [pasos, paso, postHistorial, hrol]

/-- Counterexample to C13 as stated: two exits of 6 units against quantity 6,
scheduled so that both read the quantity before either writes it, both succeed;
the quantity ends at 0 and the ledger records two exits of 6. -/
theorem concurrent_exits_counterexample :
    cantidadDe dbSeis 1 = some 6 ∧
    (intercalar (salida6 100) (salida6 101) turnosCruzados ⟨dbSeis, .inicio, .inicio⟩).a =
      .fin (.redirect "/historial") ∧
    (intercalar (salida6 100) (salida6 101) turnosCruzados ⟨dbSeis, .inicio, .inicio⟩).b =
      .fin (.redirect "/historial") ∧
    cantidadDe
      (intercalar (salida6 100) (salida6 101) turnosCruzados ⟨dbSeis, .inicio, .inicio⟩).db 1 =
      some 0 ∧
    (intercalar (salida6 100) (salida6 101) turnosCruzados ⟨dbSeis, .inicio, .inicio⟩).db.historial =
      [⟨1, 1, "salida", 6, some "Ana", none, 100⟩, ⟨2, 1, "salida", 6, some "Ana", none, 101⟩] := by
  decide

theorem selectComponente_escribirMovimiento {db : Store} {n : Int} {fila : Componente}
    {resto : List Componente} (hsel : selectComponente db (some n) = fila :: resto)
    (ahora : Int) (mov : String) (q nueva : Int) (body : CuerpoHistorial) :
    ∃ fila' resto', selectComponente (escribirMovimiento ahora db n mov q nueva body).2 (some n) =
      fila' :: resto' ∧ fila'.cantidad = nueva := by
  have hc : cantidadDe (escribirMovimiento ahora db n mov q nueva body).2 n = some nueva :=
    cantidadDe_updateCantidad hsel _
  unfold cantidadDe at hc
  cases hs : selectComponente (escribirMovimiento ahora db n mov q nueva body).2 (some n) with
  | nil => rw [hs] at hc; simp at hc
  | cons a l =>
    rw [hs] at hc
    exact ⟨a, l, rfl, by simpa using hc⟩

/-- C13 (amended): two `record` requests for an exit of `q` units against a
component whose quantity is `q` (6 in the scenario), run one after the other,
the first making all its statements before the second starts: the first
succeeds, the second is answered with the insufficient-stock error, the
quantity ends at 0 and the ledger gains exactly one movement. -/
theorem serial_exits_one_succeeds (db : Store) (ra rb : Solicitud) (ua ub : SessionUser)
    (n q : Int) (fila : Componente) (resto : List Componente) (ma mb : String)
    (hsa : ra.ses = some ua) (hsb : rb.ses = some ub)
    (hra : ua.rol = "docente") (hrb : ub.rol = "docente")
    (hpa : personaAceptada db ra.body.persona) (hpb : personaAceptada db rb.body.persona)
    (hqa : parseInt ra.body.cantidad = some q) (hqb : parseInt rb.body.cantidad = some q)
    (hpos : 0 < q)
    (hia : paramEntero ra.body.componente_id = .ok (some n))
    (hib : paramEntero rb.body.componente_id = .ok (some n))
    (hsel : selectComponente db (some n) = fila :: resto) (hs : fila.cantidad = q)
    (hma : ra.body.movimiento = some ma) (hmb : rb.body.movimiento = some mb)
    (hka : toLowerCase ma = "salida") (hkb : toLowerCase mb = "salida") :
    (intercalar ra rb turnosEnSerie ⟨db, .inicio, .inicio⟩).a = .fin (.redirect "/historial") ∧
    (intercalar ra rb turnosEnSerie ⟨db, .inicio, .inicio⟩).b =
      .fin (.render "historial" (some msgStockInsuficiente)) ∧
    cantidadDe (intercalar ra rb turnosEnSerie ⟨db, .inicio, .inicio⟩).db n = some 0 ∧
    (intercalar ra rb turnosEnSerie ⟨db, .inicio, .inicio⟩).db.historial =
      db.historial ++
        [{ id := db.historial_id_seq, componente_id := n, movimiento := ma, cantidad := q,
           persona := orNull ra.body.persona, observaciones := orNull ra.body.observaciones,
           fecha := ra.ahora }] := by
  have hserie : intercalar ra rb turnosEnSerie ⟨db, .inicio, .inicio⟩ =
      ⟨(pasos rb.ahora rb.ses rb.body 4
          (.inicio, (pasos ra.ahora ra.ses ra.body 4 (.inicio, db)).2)).2,
        (pasos ra.ahora ra.ses ra.body 4 (.inicio, db)).1,
        (pasos rb.ahora rb.ses rb.body 4
          (.inicio, (pasos ra.ahora ra.ses ra.body 4 (.inicio, db)).2)).1⟩ := rfl
  have hA : postHistorial ra.ahora db ra.ses ra.body =
      escribirMovimiento ra.ahora db n ma q 0 ra.body := by
    rw [hsa, postHistorial_core ra.ahora db ua ra.body q n fila resto ma hra hpa hqa hpos hia hsel
      hma, if_pos (Or.inr hka), if_neg (by omega), hs, sub_self]
  obtain ⟨fila', resto', hsel', hf'⟩ :=
    selectComponente_escribirMovimiento hsel ra.ahora ma q 0 ra.body
  have hpb' : personaAceptada (escribirMovimiento ra.ahora db n ma q 0 ra.body).2
      rb.body.persona := hpb
  have hB : postHistorial rb.ahora (escribirMovimiento ra.ahora db n ma q 0 ra.body).2 rb.ses
      rb.body =
      (.render "historial" (some msgStockInsuficiente),
        (escribirMovimiento ra.ahora db n ma q 0 ra.body).2) := by
    rw [hsb, postHistorial_core rb.ahora _ ub rb.body q n fila' resto' mb hrb hpb' hqb hpos hib
      hsel' hmb, if_pos (Or.inr hkb), if_pos (by omega)]
  rw [hserie, pasos_eq_postHistorial ra.ahora ra.ses ra.body db, hA, pasos_eq_postHistorial, hB]
  refine ⟨rfl, rfl, ?_, ?_⟩
  · exact cantidadDe_updateCantidad hsel 0
  · exact escribirMovimiento_historial _ _ _ _ _ _ _

/-- Witness of C13 (amended): the two exits of 6 against quantity 6, in series. -/
theorem serial_exits_one_succeeds_witness :
    (intercalar (salida6 100) (salida6 101) turnosEnSerie ⟨dbSeis, .inicio, .inicio⟩).a =
      .fin (.redirect "/historial") ∧
    (intercalar (salida6 100) (salida6 101) turnosEnSerie ⟨dbSeis, .inicio, .inicio⟩).b =
      .fin (.render "historial" (some msgStockInsuficiente)) ∧
    cantidadDe
      (intercalar (salida6 100) (salida6 101) turnosEnSerie ⟨dbSeis, .inicio, .inicio⟩).db 1 =
      some 0 :=
  have h := serial_exits_one_succeeds dbSeis (salida6 100) (salida6 101) docente docente 1 6
    ⟨1, "Arduino Uno", none, 6, some 3, some 1, none, none⟩ [] "salida" "salida"
    rfl rfl (by decide) (by decide) (by decide) (by decide) (by decide) (by decide) (by decide)
    rfl rfl (by decide) (by decide) (by decide) (by decide) (by decide) (by decide)
  ⟨h.1, h.2.1, h.2.2.1⟩

/-! ## `getPublicIdFromUrl` -/

theorem splitChars_ne_nil (sep : Char) (l : List Char) : splitChars sep l ≠ [] := by
  cases l with
  | nil => simp [splitChars]
  | cons c cs =>
    unfold splitChars
    split
    · simp
    · split <;> simp

theorem splitChars_cons_sep (sep : Char) (cs : List Char) :
    splitChars sep (sep :: cs) = [] :: splitChars sep cs := by
  simp [splitChars]

theorem splitChars_cons_ne {sep c : Char} (hc : c ≠ sep) {cs p : List Char}
    {ps : List (List Char)} (hs : splitChars sep cs = p :: ps) :
    splitChars sep (c :: cs) = (c :: p) :: ps := by
  simp [splitChars, hc, hs]

/-- Splitting at a separator splits both sides of it. -/
theorem splitChars_append_sep (sep : Char) (a b : List Char) :
    splitChars sep (a ++ sep :: b) = splitChars sep a ++ splitChars sep b := by
  induction a with
  | nil => simp [splitChars]
  | cons c cs ih =>
    by_cases hc : c = sep
    · subst hc
      rw [List.cons_append, splitChars_cons_sep, splitChars_cons_sep, ih, List.cons_append]
    · cases hs : splitChars sep cs with
      | nil => exact absurd hs (splitChars_ne_nil sep cs)
      | cons p ps =>
        rw [hs] at ih
        have ih' : splitChars sep (cs ++ sep :: b) = p :: (ps ++ splitChars sep b) := ih
        rw [List.cons_append, splitChars_cons_ne hc hs, splitChars_cons_ne hc ih',
          List.cons_append]

theorem splitChars_noSep (sep : Char) (a : List Char) (h : sep ∉ a) :
    splitChars sep a = [a] := by
  induction a with
  | nil => rfl
  | cons c cs ih =>
    have hc : c ≠ sep := fun e => h (by rw [e]; exact List.mem_cons_self _ _)
    have hcs : sep ∉ cs := fun e => h (List.mem_cons_of_mem _ e)
    exact splitChars_cons_ne hc (ih hcs)

/-- A text without separator appended to `a` extends the last segment of `a`. -/
theorem splitChars_append_noSep (sep : Char) (a b : List Char) (h : sep ∉ b) :
    splitChars sep (a ++ b) =
      (splitChars sep a).dropLast ++ [(splitChars sep a).getLast?.getD [] ++ b] := by
  induction a with
  | nil => simp [splitChars, splitChars_noSep sep b h]
  | cons c cs ih =>
    cases hs : splitChars sep cs with
    | nil => exact absurd hs (splitChars_ne_nil sep cs)
    | cons p ps =>
      rw [hs] at ih
      by_cases hc : c = sep
      · subst hc
        rw [List.cons_append, splitChars_cons_sep, splitChars_cons_sep, ih, hs]
        simp [List.dropLast, List.getLast?_cons_cons]
      · cases ps with
        | nil =>
          simp only [List.dropLast, List.getLast?_singleton, Option.getD_some,
            List.nil_append] at ih
          rw [List.cons_append, splitChars_cons_ne hc ih, splitChars_cons_ne hc hs]
          simp
        | cons p2 ps2 =>
          simp only [List.dropLast, List.getLast?_cons_cons, List.cons_append] at ih
          rw [List.cons_append, splitChars_cons_ne hc ih, splitChars_cons_ne hc hs]
          simp [List.dropLast, List.getLast?_cons_cons]

/-- Joining the segments with the separator gives the text back. -/
theorem intercalate_splitChars (sep : Char) (a : List Char) :
    List.intercalate [sep] (splitChars sep a) = a := by
  induction a with
  | nil => simp [splitChars, List.intercalate, List.intersperse]
  | cons c cs ih =>
    cases hs : splitChars sep cs with
    | nil => exact absurd hs (splitChars_ne_nil sep cs)
    | cons p ps =>
      rw [hs] at ih
      by_cases hc : c = sep
      · subst hc
        rw [splitChars_cons_sep, hs]
        simp only [List.intercalate, List.intersperse, List.flatten, List.nil_append,
          List.singleton_append] at ih ⊢
        rw [ih]
      · rw [splitChars_cons_ne hc hs]
        cases ps with
        | nil =>
          simp only [List.intercalate, List.intersperse, List.flatten, List.append_nil] at ih ⊢
          rw [ih]
        | cons p2 ps2 =>
          simp only [List.intercalate, List.intersperse, List.flatten, List.cons_append] at ih ⊢
          rw [ih]

/-- A text that holds the separator splits at its last occurrence. -/
theorem exists_last_sep (sep : Char) (r : List Char) (h : sep ∈ r) :
    ∃ a b, r = a ++ sep :: b ∧ sep ∉ b := by
  induction r with
  | nil => cases h
  | cons c cs ih =>
    by_cases hcs : sep ∈ cs
    · obtain ⟨a, b, hab, hb⟩ := ih hcs
      exact ⟨c :: a, b, by rw [hab]; rfl, hb⟩
    · have hc : sep = c := by
        rcases List.mem_cons.1 h with h1 | h1
        · exact h1
        · exact absurd h1 hcs
      exact ⟨[], cs, by rw [hc]; rfl, hcs⟩

/-- The regular expression of `getPublicIdFromUrl` removes a last extension made
of a dot and one or more characters other than `/` and `.`. -/
theorem stripExtension_append (x e : List Char) (he0 : e ≠ [])
    (he : ∀ c ∈ e, c ≠ '/' ∧ c ≠ '.') : stripExtension (x ++ '.' :: e) = x := by
  unfold stripExtension
  have hrev : (x ++ '.' :: e).reverse = e.reverse ++ '.' :: x.reverse := by simp
  have hall : ∀ c ∈ e.reverse, (c != '/' && c != '.') = true := by
    intro c hc
    have := he c (List.mem_reverse.1 hc)
    simp [this.1, this.2]
  simp only [hrev]
  rw [List.dropWhile_append_of_pos hall, List.takeWhile_append_of_pos hall]
  have hd : List.dropWhile (fun a : Char => a != '/' && a != '.') ('.' :: x.reverse) =
      '.' :: x.reverse := by
    simp [List.dropWhile_cons]
  have ht : List.takeWhile (fun a : Char => a != '/' && a != '.') ('.' :: x.reverse) = [] := by
    simp [List.takeWhile_cons]
  rw [hd, ht]
  simp [he0]

/-- The first `upload` segment of a URL whose part before the marker holds none. -/
theorem indexOf_upload (ps qs : List (List Char)) (h : "upload".data ∉ ps) :
    (ps ++ "upload".data :: qs).indexOf? "upload".data = some ps.length := by
  unfold List.indexOf?
  rw [List.findIdx?_append]
  have hnone : List.findIdx? (fun x => x == "upload".data) ps = none := by
    rw [List.findIdx?_eq_none_iff]
    intro x hx
    have : x ≠ "upload".data := fun e => h (e ▸ hx)
    simpa using this
  rw [hnone]
  simp [List.findIdx?_cons]

/-- The parts of a URL `p/upload/r.e` after `split('/')`: the last one and the
ones before it. -/
theorem splitChars_url (p r e : List Char) (he : ∀ c ∈ e, c ≠ '/' ∧ c ≠ '.') :
    splitChars '/' (p ++ "/upload/".data ++ r ++ '.' :: e) =
      (splitChars '/' p ++ "upload".data :: (splitChars '/' r).dropLast) ++
        [(splitChars '/' r).getLast?.getD [] ++ '.' :: e] := by
  have hshape : p ++ "/upload/".data ++ r ++ '.' :: e =
      p ++ '/' :: ("upload".data ++ '/' :: (r ++ '.' :: e)) := by
    have h1 : "/upload/".data = '/' :: ("upload".data ++ ['/']) := rfl
    rw [h1]
    simp
  have hup : splitChars '/' "upload".data = ["upload".data] := by decide
  have hext : ('/' : Char) ∉ '.' :: e := by
    intro h
    rcases List.mem_cons.1 h with h1 | h1
    · exact absurd h1 (by decide)
    · exact (he _ h1).1 rfl
  rw [hshape, splitChars_append_sep, splitChars_append_sep, hup,
    splitChars_append_noSep '/' r _ hext]
  simp

theorem idTrasUpload_noSep (r : List Char) (h : '/' ∉ r) : idTrasUpload r = r := by
  unfold idTrasUpload
  split
  · rename_i nombre
    exact absurd (List.mem_cons_self _ _) h
  · rfl

theorem idTrasUpload_nil_folder (b : List Char) (h : '/' ∉ b) : idTrasUpload ('/' :: b) = b := by
  simp [idTrasUpload, h]

theorem idTrasUpload_folder (a b : List Char) (ha : a ≠ []) :
    idTrasUpload (a ++ '/' :: b) = a ++ '/' :: b := by
  cases a with
  | nil => exact absurd rfl ha
  | cons c cs =>
    unfold idTrasUpload
    split
    · rename_i nombre heq
      injection heq with h1 h2
      rw [← h2]
      simp
    · rfl

/-- The function on a URL `p/upload/r.e`, on characters. -/
theorem getPublicIdFromUrl_chars (p r e : List Char)
    (hp : "upload".data ∉ splitChars '/' p) (he0 : e ≠ [])
    (he : ∀ c ∈ e, c ≠ '/' ∧ c ≠ '.') :
    getPublicIdFromUrl (some (String.mk (p ++ "/upload/".data ++ r ++ '.' :: e))) =
      some (String.mk (idTrasUpload r)) := by
  have hne : String.mk (p ++ "/upload/".data ++ r ++ '.' :: e) ≠ "" := by
    intro h
    have hd := congrArg String.data h
    simp at hd
  unfold getPublicIdFromUrl
  simp only [hne, if_false, splitChars_url p r e he, List.getLast?_concat, Option.getD_some,
    List.dropLast_concat, indexOf_upload _ _ hp, List.drop_left']
  have hdrop : List.drop ((splitChars '/' p).length + 1)
      (splitChars '/' p ++ "upload".data :: (splitChars '/' r).dropLast) =
      (splitChars '/' r).dropLast := by
    rw [List.drop_append_eq_append_drop]
    simp
  rw [hdrop]
  by_cases hr : '/' ∈ r
  · obtain ⟨a, b, rfl, hb⟩ := exists_last_sep '/' r hr
    have hs : splitChars '/' (a ++ '/' :: b) = splitChars '/' a ++ [b] := by
      rw [splitChars_append_sep, splitChars_noSep '/' b hb]
    rw [hs, List.dropLast_concat, List.getLast?_concat, Option.getD_some,
      intercalate_splitChars]
    by_cases ha : a = []
    · subst ha
      simp only [List.isEmpty_nil, if_true, List.nil_append]
      rw [stripExtension_append b e he0 he, idTrasUpload_nil_folder b hb]
    · have hae : a.isEmpty = false := by
        cases a with
        | nil => exact absurd rfl ha
        | cons c cs => rfl
      simp only [hae, Bool.false_eq_true, if_false]
      have hcat : a ++ '/' :: (b ++ '.' :: e) = (a ++ '/' :: b) ++ '.' :: e := by simp
      rw [hcat, stripExtension_append _ e he0 he, idTrasUpload_folder a b ha]
  · have hs : splitChars '/' r = [r] := splitChars_noSep '/' r hr
    rw [hs]
    simp only [List.dropLast, List.getLast?_singleton, Option.getD_some, List.intercalate,
      List.intersperse, List.flatten, List.isEmpty_nil, if_true]
    rw [stripExtension_append r e he0 he, idTrasUpload_noSep r hr]

/-- Counterexample to C14 as stated: the URL `x/upload//a.png` has the form
`P + '/upload/' + R + '.' + E` with `P = x`, `R = /a` and `E = png`, and the
function returns `a`, not `R`. -/
theorem getPublicIdFromUrl_counterexample :
    "x" ++ "/upload/" ++ "/a" ++ "." ++ "png" = "x/upload//a.png" ∧
    "upload".data ∉ splitChars '/' "x".data ∧
    getPublicIdFromUrl (some "x/upload//a.png") = some "a" ∧
    getPublicIdFromUrl (some "x/upload//a.png") ≠ some "/a" := by
  decide

/-- C14 (amended): the `getPublicIdFromUrl` in effect returns `null` for a
`null` or empty URL and for a URL none of whose path segments before the last
equals `upload`.  For every URL `P + '/upload/' + R + '.' + E` in which no
segment of `P` equals `upload` and `E` is not empty and holds neither `/` nor
`.`, it returns `R`, unless `R` is one `/` followed by a name without `/`: then
it returns that name. -/
theorem getPublicIdFromUrl_spec :
    getPublicIdFromUrl none = none ∧
    getPublicIdFromUrl (some "") = none ∧
    (∀ u : String, "upload".data ∉ (splitChars '/' u.data).dropLast →
      getPublicIdFromUrl (some u) = none) ∧
    (∀ P R E : String, "upload".data ∉ splitChars '/' P.data → E ≠ "" →
      (∀ c ∈ E.data, c ≠ '/' ∧ c ≠ '.') →
      getPublicIdFromUrl (some (P ++ "/upload/" ++ R ++ "." ++ E)) =
        some (String.mk (idTrasUpload R.data)) ∧
      ((¬ ∃ nombre, R.data = '/' :: nombre ∧ '/' ∉ nombre) →
        getPublicIdFromUrl (some (P ++ "/upload/" ++ R ++ "." ++ E)) = some R) ∧
      (∀ nombre, R.data = '/' :: nombre → '/' ∉ nombre →
        getPublicIdFromUrl (some (P ++ "/upload/" ++ R ++ "." ++ E)) =
          some (String.mk nombre))) := by
  refine ⟨rfl, rfl, ?_, ?_⟩
  · intro u hu
    unfold getPublicIdFromUrl
    by_cases h : u = ""
    · simp [h]
    · have hnone : (splitChars '/' u.data).dropLast.indexOf? "upload".data = none := by
        unfold List.indexOf?
        rw [List.findIdx?_eq_none_iff]
        intro x hx
        have : x ≠ "upload".data := fun e => hu (e ▸ hx)
        simpa using this
      simp only [h, if_false, hnone]
  · intro P R E hP hE0 hE
    have hurl : P ++ "/upload/" ++ R ++ "." ++ E =
        String.mk (P.data ++ "/upload/".data ++ R.data ++ '.' :: E.data) := by
      apply String.ext
      simp [String.data_append]
    have he0 : E.data ≠ [] := by
      intro h
      apply hE0
      apply String.ext
      rw [h]
    have hmain := getPublicIdFromUrl_chars P.data R.data E.data hP he0 hE
    rw [hurl, hmain]
    refine ⟨rfl, ?_, ?_⟩
    · intro hno
      have hid : idTrasUpload R.data = R.data := by
        unfold idTrasUpload
        split
        · rename_i nombre heq
          by_cases hs : '/' ∈ nombre
          · simp [hs]
          · exact absurd ⟨nombre, heq, hs⟩ hno
        · rfl
      rw [hid]
    · intro nombre hR hn
      rw [hR, idTrasUpload_nil_folder nombre hn]

/-- Witness of C14 (amended): a URL with a folder, and one whose rest after the
marker is `/a`. -/
theorem getPublicIdFromUrl_spec_witness :
    getPublicIdFromUrl (some ("https://host/img" ++ "/upload/" ++ "carpeta/foto.v2" ++ "." ++ "png")) =
      some "carpeta/foto.v2" ∧
    getPublicIdFromUrl (some ("x" ++ "/upload/" ++ "/a" ++ "." ++ "png")) = some (String.mk ['a']) :=
  ⟨(getPublicIdFromUrl_spec.2.2.2 "https://host/img" "carpeta/foto.v2" "png" (by decide)
      (by decide) (by decide)).2.1 (by rintro ⟨n, h, _⟩; simp at h),
   (getPublicIdFromUrl_spec.2.2.2 "x" "/a" "png" (by decide) (by decide) (by decide)).2.2
      ['a'] rfl (by decide)⟩

/-- C18 at the failing inputs: for the `secure_url` of every asset of folder
`inventario` of the cloud `demo` with extension `png`, whatever its version
digits and its name, the function returns `v<digits>/inventario/<name>`, with
the version segment, and not the `public_id` `inventario/<name>`. -/
theorem publicId_keeps_version (digits name : String) :
    getPublicIdFromUrl
        (some ("https://res.cloudinary.com/demo/image" ++ "/upload/" ++
          ("v" ++ digits ++ "/inventario/" ++ name) ++ "." ++ "png")) =
      some ("v" ++ digits ++ "/inventario/" ++ name) ∧
    getPublicIdFromUrl
        (some ("https://res.cloudinary.com/demo/image" ++ "/upload/" ++
          ("v" ++ digits ++ "/inventario/" ++ name) ++ "." ++ "png")) ≠
      some ("inventario/" ++ name) ∧
    getPublicIdFromUrl
        (some "https://res.cloudinary.com/demo/image/upload/v17/inventario/uno.png") =
      some "v17/inventario/uno" := by
  have hurl : "https://res.cloudinary.com/demo/image" ++ "/upload/" ++
      ("v" ++ digits ++ "/inventario/" ++ name) ++ "." ++ "png" =
      String.mk ("https://res.cloudinary.com/demo/image".data ++ "/upload/".data ++
        ("v" ++ digits ++ "/inventario/" ++ name).data ++ '.' :: "png".data) := by
    apply String.ext
    simp [String.data_append]
  have hmain := getPublicIdFromUrl_chars "https://res.cloudinary.com/demo/image".data
    ("v" ++ digits ++ "/inventario/" ++ name).data "png".data (by decide) (by decide) (by decide)
  have hv : ("v" ++ digits ++ "/inventario/" ++ name).data =
      'v' :: (digits.data ++ "/inventario/".data ++ name.data) := by
    simp only [String.data_append]
    rfl
  have hid : idTrasUpload ("v" ++ digits ++ "/inventario/" ++ name).data =
      ("v" ++ digits ++ "/inventario/" ++ name).data := by
    rw [hv]
    rfl
  rw [hurl, hmain, hid]
  refine ⟨rfl, ?_, by decide⟩
  intro h
  injection h with h
  have hd := congrArg String.data h
  rw [hv] at hd
  simp only [String.data_append] at hd
  injection hd with hc _
  exact absurd hc (by decide)

/-! ## Placeholders of the filter builders -/

/-- C19: in each of the six dynamic filter builders, for every combination of
present and absent filters, the placeholders of the built query are exactly
`$1..$n` in the order the clauses are appended, `n` is the length of the
parameter array, and the clause that carries `$k` has at position `k` of the
array the value that belongs to it (listed per builder, by the text of the
clause).  Two built texts are spelled out at the end. -/
theorem builders_number_placeholders :
    (∀ q : QueryInventario,
      Encaja (construirInventario q).query (construirInventario q).valores
        [(" AND LOWER(c.nombre) LIKE LOWER(", .texto ("%" ++ q.busqueda.getD "" ++ "%")),
         (" AND c.tipo = ", .texto (q.tipo.getD ""))]) ∧
    (∀ q : QueryReportes,
      Encaja (construirCategoriasUbicaciones q).query (construirCategoriasUbicaciones q).valores
        [(" AND c.tipo = ", .texto (q.categoria.getD "")),
         (" AND c.ubicacion = ", .texto (q.ubicacion.getD ""))]) ∧
    (∀ q : QueryReportes,
      Encaja (construirReportes q).query (construirReportes q).params
        [(" AND c.tipo = ", .texto (q.categoria.getD "")),
         (" AND c.ubicacion = ", .texto (q.ubicacion.getD ""))]) ∧
    (∀ q : QueryReportes,
      Encaja (construirReportesExcel q).query (construirReportesExcel q).params
        [(" AND c.tipo = ", .texto (q.categoria.getD "")),
         (" AND c.ubicacion = ", .texto (q.ubicacion.getD ""))]) ∧
    (∀ q : QueryHistorial,
      Encaja (construirHistorialPdf q).query (construirHistorialPdf q).valores
        [(" AND h.fecha >= ", .texto (q.fechaDesde.getD "")),
         (" AND h.fecha <= ", .texto (q.fechaHasta.getD "" ++ " 23:59:59")),
         (" AND h.persona ILIKE ", .texto ("%" ++ q.personaFiltro.getD "" ++ "%"))]) ∧
    (∀ q : QueryHistorial,
      Encaja (construirHistorial q).query (construirHistorial q).valores
        [(" AND h.fecha >= ", .fecha (q.fechaDesde.getD "" ++ "T00:00:00")),
         (" AND h.fecha <= ", .fecha (q.fechaHasta.getD "" ++ "T23:59:59")),
         (" AND h.persona ILIKE ", .texto ("%" ++ q.persona.getD "" ++ "%"))]) ∧
    textoDe (construirInventario ⟨some "ardu", some "3"⟩).query =
      " AND LOWER(c.nombre) LIKE LOWER($1) AND c.tipo = $2 ORDER BY c.id" ∧
    textoDe (construirHistorial ⟨none, some "2024-02-01", some "Ana", none⟩).query =
      " AND h.fecha <= $1 AND h.persona ILIKE $2 ORDER BY h.fecha DESC" := by
  refine ⟨?_, ?_, ?_, ?_, ?_, ?_, by decide, by decide⟩
  · intro q
    cases h1 : truthy q.busqueda <;> cases h2 : truthy q.tipo <;>
      simp [construirInventario, h1, h2, ConIndice.clausula, Encaja, marcadores, clausulas,
        List.range']
  · intro q
    cases h1 : truthy q.categoria <;> cases h2 : truthy q.ubicacion <;>
      simp [construirCategoriasUbicaciones, h1, h2, ConIndice.clausula, Encaja, marcadores,
        clausulas, List.range']
  · intro q
    cases h1 : truthy q.categoria <;> cases h2 : truthy q.ubicacion <;>
      simp [construirReportes, h1, h2, ConParams.clausula, Encaja, marcadores, clausulas,
        List.range']
  · intro q
    cases h1 : truthy q.categoria <;> cases h2 : truthy q.ubicacion <;>
      simp [construirReportesExcel, h1, h2, ConParams.clausula, Encaja, marcadores, clausulas,
        List.range']
  · intro q
    cases h1 : truthy q.fechaDesde <;> cases h2 : truthy q.fechaHasta <;>
      cases h3 : truthy q.personaFiltro <;>
      simp [construirHistorialPdf, h1, h2, h3, ConIndice.clausula, Encaja, marcadores,
        clausulas, List.range']
  · intro q
    cases h1 : truthy q.fechaDesde <;> cases h2 : truthy q.fechaHasta <;>
      cases h3 : truthy q.persona <;>
      simp [construirHistorial, h1, h2, h3, ConIndice.clausula, Encaja, marcadores, clausulas,
        List.range']

/-! ## Role gate of the report endpoints -/

theorem esDocente_no_docente {user : SessionUser} (h : user.rol ≠ "docente") :
    esDocente (some user) = false := by
  simp [esDocente, h]

/-- C20: role gating of the report endpoints is not uniform.  For every
authenticated session whose role is not `docente`, the component report
listing and the component spreadsheet export answer with a redirect to `/` and
no rows; the component PDF export, the movement spreadsheet export, the
movement PDF export and the filtered movement listing make no role check:
they answer that session as they answer any other one, with the queried rows
(for the two routes with date filters, whenever the store accepts the dates). -/
theorem report_gating_not_uniform (fx : Fechas) (db : Store) (user : SessionUser)
    (hrol : user.rol ≠ "docente") :
    (∀ q, ejecutarInforme fx db (some user) (.reportes q) = .componentes (.redirect "/")) ∧
    (∀ q, ejecutarInforme fx db (some user) (.exportExcel q) = .componentes (.redirect "/")) ∧
    (∀ q, ∃ rows, ejecutarInforme fx db (some user) (.exportPdf q) =
      .componentes (.filas "componentes.pdf" rows) ∧
      rows.length = (joinComponentes db).length) ∧
    (∀ q, ejecutarInforme fx db (some user) (.historialExcel q) =
      .movimientos (.filas "historial.xlsx" (ordenFechaDesc (joinHistorial db)))) ∧
    (∀ q desde hasta, paramFecha fx.pgTimestamp q.fechaDesde "" = .ok desde →
      paramFecha fx.pgTimestamp q.fechaHasta " 23:59:59" = .ok hasta →
      ejecutarInforme fx db (some user) (.historialPdf q) =
        .movimientos (.filas "historial.pdf" (selectHistorial db desde hasta q.personaFiltro))) ∧
    (∀ q desde hasta, paramFecha fx.jsDate q.fechaDesde "T00:00:00" = .ok desde →
      paramFecha fx.jsDate q.fechaHasta "T23:59:59" = .ok hasta →
      ejecutarInforme fx db (some user) (.historial q) =
        .movimientos (.filas "reportes" (selectHistorial db desde hasta q.persona))) ∧
    (∀ (ses' : Session) (q : QueryReportes),
      ejecutarInforme fx db (some user) (.exportPdf q) =
        ejecutarInforme fx db ses' (.exportPdf q)) ∧
    (∀ (ses' : Session) (q : QueryHistorial),
      ejecutarInforme fx db (some user) (.historialExcel q) =
        ejecutarInforme fx db ses' (.historialExcel q) ∧
      ejecutarInforme fx db (some user) (.historialPdf q) =
        ejecutarInforme fx db ses' (.historialPdf q) ∧
      ejecutarInforme fx db (some user) (.historial q) =
        ejecutarInforme fx db ses' (.historial q)) := by
  have hd := esDocente_no_docente hrol
  refine ⟨?_, ?_, ?_, ?_, ?_, ?_, ?_, ?_⟩
  · intro q
    simp [ejecutarInforme, getReportes, hd]
  · intro q
    simp [ejecutarInforme, getReportesExportExcel, hd]
  · intro q
    refine ⟨_, rfl, ?_⟩
    rw [List.length_map, (List.perm_insertionSort _ _).length_eq]
  · intro q
    rfl
  · intro q desde hasta h1 h2
    simp only [ejecutarInforme, getReportesHistorialPdf, h1, h2]
  · intro q desde hasta h1 h2
    simp only [ejecutarInforme, getReportesHistorial, h1, h2]
  · intro ses' q
    rfl
  · intro ses' q
    exact ⟨rfl, rfl, rfl⟩

/-- Witness of C20: the student Ana gets no rows from the component report and
all the rows of the movement listing. -/
theorem report_gating_not_uniform_witness :
    ejecutarInforme sinFechas dbDos sesAlumno (.reportes ⟨none, none⟩) =
      .componentes (.redirect "/") ∧
    ejecutarInforme sinFechas dbDos sesAlumno (.historial ⟨none, none, none, none⟩) =
      .movimientos (.filas "reportes"
        [⟨2, "Sensor DHT11", "salida", 1, some "Luis", none, 101⟩,
         ⟨1, "Arduino Uno", "préstamo", 4, some "Ana", none, 100⟩]) :=
  have h := report_gating_not_uniform sinFechas dbDos ⟨2, "Ana", "ana", "alumno"⟩ (by decide)
  ⟨h.1 ⟨none, none⟩,
    (h.2.2.2.2.2.1 ⟨none, none, none, none⟩ none none rfl rfl).trans (by decide)⟩

end Inventario
